import Mathlib

/-!
Verification of the border0 connector agent core: the `models` package
(ConnectorData / Socket tag handling and type inference) and the
`internal/connector/core` reconciler (`core.go`).  Go machine integers are
modelled as `Int`, Go string maps as association lists with zero-value
lookup, Go slices as `List`, and the control-plane API as an explicit
environment; every API call issued by the reconciler is recorded in an
event trace in program order.
-/

namespace Border0

/-! ## strconv: decimal formatting and parsing (Go standard library)

`strconv.Itoa` / `strconv.Atoi` are modelled by their documented behaviour:
`Itoa` renders the decimal representation (with a leading `-` for negative
numbers), `Atoi` accepts an optional sign followed by one or more decimal
digits and returns 0 on malformed input (the connector code discards the
error value). -/

/-- The decimal digit character for `d` (meaningful for `d < 10`). -/
def digitChar (d : Nat) : Char := Char.ofNat (48 + d)

/-- Decimal representation of a natural number. -/
def natRepr (n : Nat) : String :=
  if n = 0 then "0" else String.mk (((Nat.digits 10 n).map digitChar).reverse)

/-- Model of Go `strconv.Itoa` on a (mathematical) integer. -/
def Itoa (n : Int) : String :=
  if n < 0 then "-" ++ natRepr n.natAbs else natRepr n.toNat

/-- Is `c` one of the ASCII digits `0`..`9`? -/
def isDigitChar (c : Char) : Bool := 48 ≤ c.toNat && c.toNat ≤ 57

/-- Accumulate the value of a big-endian list of digit characters. -/
def parseNatChars (l : List Char) : Nat :=
  l.foldl (fun acc c => acc * 10 + (c.toNat - 48)) 0

/-- Character-list form of `Atoi`: optional sign, then decimal digits. -/
def AtoiChars : List Char → Int
  | [] => 0
  | c :: rest =>
    if c = '-' then
      if rest ≠ [] ∧ rest.all isDigitChar then -(parseNatChars rest : Int) else 0
    else if c = '+' then
      if rest ≠ [] ∧ rest.all isDigitChar then (parseNatChars rest : Int) else 0
    else if (c :: rest).all isDigitChar then (parseNatChars (c :: rest) : Int) else 0

/-- Model of Go `strconv.Atoi`: optional sign, then decimal digits; the
value 0 stands for any parse error (the callers ignore the error). -/
def Atoi (s : String) : Int := AtoiChars s.data

theorem digitChar_toNat {d : Nat} (h : d < 10) : (digitChar d).toNat = 48 + d := by
  interval_cases d <;> rfl

theorem isDigitChar_digitChar {d : Nat} (h : d < 10) : isDigitChar (digitChar d) = true := by
  interval_cases d <;> rfl

theorem parseNatChars_revMap (ds : List Nat) (a : Nat) (h : ∀ d ∈ ds, d < 10) :
    ((ds.map digitChar).reverse).foldl (fun acc c => acc * 10 + (c.toNat - 48)) a
      = ds.foldr (fun d acc => acc * 10 + d) a := by
  induction ds with
  | nil => rfl
  | cons d t ih =>
    have hd : d < 10 := h d (List.mem_cons_self d t)
    have ht : ∀ x ∈ t, x < 10 := fun x hx => h x (List.mem_cons_of_mem d hx)
    simp only [List.map_cons, List.reverse_cons, List.foldl_append, List.foldl_cons,
      List.foldl_nil, List.foldr_cons, ih ht]
    rw [digitChar_toNat hd]
    omega

theorem foldr_digits_ofDigits (l : List Nat) :
    l.foldr (fun d acc => acc * 10 + d) 0 = Nat.ofDigits 10 l := by
  induction l with
  | nil => simp [Nat.ofDigits]
  | cons d t ih =>
    simp only [List.foldr_cons, ih, Nat.ofDigits_cons]
    ring

theorem parseNatChars_natRepr (n : Nat) : parseNatChars (natRepr n).data = n := by
  by_cases h0 : n = 0
  · subst h0; rfl
  · have hd : ∀ d ∈ Nat.digits 10 n, d < 10 :=
      fun d hdm => Nat.digits_lt_base (by norm_num) hdm
    unfold natRepr parseNatChars
    rw [if_neg h0]
    show (((Nat.digits 10 n).map digitChar).reverse).foldl _ 0 = n
    rw [parseNatChars_revMap _ 0 hd, foldr_digits_ofDigits, Nat.ofDigits_digits]

theorem natRepr_all_digits (n : Nat) : ((natRepr n).data).all isDigitChar = true := by
  by_cases h0 : n = 0
  · subst h0; rfl
  · unfold natRepr
    rw [if_neg h0]
    show (((Nat.digits 10 n).map digitChar).reverse).all isDigitChar = true
    rw [List.all_eq_true]
    intro c hc
    rw [List.mem_reverse, List.mem_map] at hc
    obtain ⟨d, hdm, rfl⟩ := hc
    exact isDigitChar_digitChar (Nat.digits_lt_base (by norm_num) hdm)

theorem natRepr_ne_nil (n : Nat) : (natRepr n).data ≠ [] := by
  by_cases h0 : n = 0
  · subst h0; intro h; simp [natRepr] at h
  · unfold natRepr
    rw [if_neg h0]
    show (((Nat.digits 10 n).map digitChar).reverse) ≠ []
    simp [Nat.digits_ne_nil_iff_ne_zero, h0]

theorem data_minus_append (s : String) : ("-" ++ s).data = '-' :: s.data := by
  cases s; rfl

theorem Atoi_natRepr (n : Nat) : Atoi (natRepr n) = n := by
  have hall := natRepr_all_digits n
  have hne := natRepr_ne_nil n
  unfold Atoi
  cases hdata : (natRepr n).data with
  | nil => exact absurd hdata hne
  | cons c rest =>
    have hcdig : isDigitChar c = true := by
      rw [hdata, List.all_cons, Bool.and_eq_true] at hall
      exact hall.1
    have hc1 : ¬ c = '-' := by
      intro h; subst h; simp [isDigitChar] at hcdig
    have hc2 : ¬ c = '+' := by
      intro h; subst h; simp [isDigitChar] at hcdig
    rw [AtoiChars, if_neg hc1, if_neg hc2, if_pos (by rw [← hdata]; exact hall)]
    have := parseNatChars_natRepr n
    rw [hdata] at this
    rw [this]

theorem Atoi_Itoa (n : Int) : Atoi (Itoa n) = n := by
  unfold Itoa
  by_cases hneg : n < 0
  · rw [if_pos hneg]
    have hall := natRepr_all_digits n.natAbs
    have hne := natRepr_ne_nil n.natAbs
    unfold Atoi
    rw [data_minus_append, AtoiChars, if_pos rfl, if_pos ⟨hne, hall⟩, parseNatChars_natRepr]
    omega
  · rw [if_neg hneg, Atoi_natRepr, Int.toNat_of_nonneg (by omega)]

/-! ## Data model (`models` package, src/unnamed/part_000)

Go zero values are the structure field defaults; Go `map[string]string` is
an association list read through `tagsGet` (absent key ↦ `""`, the Go map
zero value); Go `int` is `Int`. -/

/-- Model of `models.Tunnel`. -/
structure Tunnel where
  TunnelID : String := ""
  LocalPort : Int := 0
  TunnelServer : String := ""
  deriving DecidableEq

/-- Modelled from the spec: `models.Policy` is declared outside the provided
sources; the reconciler consumes only its `Name` field, which it merges into
`PolicyNames` when indexing control-plane sockets. -/
structure Policy where
  Name : String := ""
  deriving DecidableEq

/-- Model of `models.ConnectorData`.  The Go field `Type` is spelled `Type'` here. -/
structure ConnectorData where
  Name : String := ""
  Connector : String := ""
  Type' : String := ""
  Port : Int := 0
  TargetHostname : String := ""
  PolicyGroup : String := ""
  Ec2Tag : String := ""
  InstanceId : String := ""
  PluginName : String := ""
  ManagedBy : String := ""
  deriving DecidableEq

/-- Model of `ConnectorData.Tags`: the string-map mirror of a ConnectorData; the
`managed_by` entry is added only when `ManagedBy` is non-empty. -/
def ConnectorData.Tags (c : ConnectorData) : List (String × String) :=
  let data := [("name", c.Name), ("connector_name", c.Connector), ("type", c.Type'),
    ("target_port", Itoa c.Port), ("target_hostname", c.TargetHostname),
    ("ec2_tag", c.Ec2Tag), ("policy_group", c.PolicyGroup),
    ("instance_id", c.InstanceId), ("plugin_name", c.PluginName)]
  if c.ManagedBy ≠ "" then data ++ [("managed_by", c.ManagedBy)] else data

/-- Model of `ConnectorData.Key`: `"name;connector;plugin_name"`, empty when all of
name/connector/type/port are zero. -/
def ConnectorData.Key (c : ConnectorData) : String :=
  if c.Name = "" ∧ c.Connector = "" ∧ c.Type' = "" ∧ c.Port = 0 then ""
  else c.Name ++ ";" ++ c.Connector ++ ";" ++ c.PluginName

/-- Model of `models.Socket`. JSON-only concerns are dropped; field order and types
follow the Go struct. -/
structure Socket where
  Tunnels : List Tunnel := []
  Username : String := ""
  SocketID : String := ""
  SocketTcpPorts : List Int := []
  Dnsname : String := ""
  Name : String := ""
  Description : String := ""
  SocketType : String := ""
  ProtectedSocket : Bool := false
  ProtectedUsername : String := ""
  ProtectedPassword : String := ""
  AllowedEmailAddresses : List String := []
  AllowedEmailDomains : List String := []
  SSHCa : String := ""
  UpstreamUsername : String := ""
  UpstreamPassword : String := ""
  UpstreamCert : Option String := none
  UpstreamKey : Option String := none
  UpstreamCa : Option String := none
  UpstreamHttpHostname : String := ""
  UpstreamType : String := ""
  CloudAuthEnabled : Bool := false
  ConnectorAuthenticationEnabled : Bool := false
  Tags : List (String × String) := []
  CustomDomains : List String := []
  PolicyNames : List String := []
  Policies : List Policy := []
  OrgCustomDomain : String := ""
  TargetHostname : String := ""
  TargetPort : Int := 0
  PolicyGroup : String := ""
  Ec2Tag : String := ""
  InstanceId : String := ""
  PluginName : String := ""
  ManagedBy : String := ""
  ConnectorData : Option Border0.ConnectorData := none
  deriving DecidableEq

/-- Go map read `m[k]` on a string-keyed map: zero value `""` when absent. -/
def tagsGet (tags : List (String × String)) (k : String) : String :=
  match tags.find? (fun p => p.1 == k) with
  | some p => p.2
  | none => ""

/-- Go `strings.Replace(s, old, new, -1)` in the only form `SanitizeName`
uses — a single-character pattern: every occurrence of the character is
replaced. -/
def replaceChar (s : String) (oldc newc : Char) : String :=
  String.mk (s.data.map fun c => if c = oldc then newc else c)

/-- Model of `Socket.SanitizeName`: replace `.`, space (and `.` again), `_` by `-`. -/
def Socket.SanitizeName (s : Socket) : Socket :=
  let socketName := replaceChar s.Name '.' '-'
  let socketName := replaceChar socketName ' ' '-'
  let socketName := replaceChar socketName '.' '-'
  { s with Name := replaceChar socketName '_' '-' }

/-- Model of `Socket.BuildConnectorData`. -/
def Socket.BuildConnectorData (s : Socket) (connectorName principal : String) : Socket :=
  { s with ConnectorData := some {
      Name := s.Name, Connector := connectorName, Type' := s.SocketType,
      Port := s.TargetPort, TargetHostname := s.TargetHostname,
      PolicyGroup := s.PolicyGroup, Ec2Tag := s.Ec2Tag,
      InstanceId := s.InstanceId, PluginName := s.PluginName,
      ManagedBy := principal } }

/-- Model of `Socket.BuildConnectorDataAndTags` (the ConnectorData just built is
always present, so the Go nil-pointer dereference cannot occur). -/
def Socket.BuildConnectorDataAndTags (s : Socket) (connectorName principal : String) : Socket :=
  let s := s.BuildConnectorData connectorName principal
  { s with Tags := (s.ConnectorData.getD {}).Tags }

/-- Model of `Socket.BuildConnectorDataByTags`: rebuild ConnectorData from the tags
map; with an empty map the zero-valued ConnectorData is installed. -/
def Socket.BuildConnectorDataByTags (s : Socket) : Socket :=
  if s.Tags.length = 0 then { s with ConnectorData := some {} }
  else
    { s with ConnectorData := some {
        Name := tagsGet s.Tags "name",
        Connector := tagsGet s.Tags "connector_name",
        Type' := tagsGet s.Tags "type",
        Port := Atoi (tagsGet s.Tags "target_port"),
        TargetHostname := tagsGet s.Tags "target_hostname",
        Ec2Tag := tagsGet s.Tags "ec2_tag",
        InstanceId := tagsGet s.Tags "instance_id",
        PolicyGroup := tagsGet s.Tags "policy_group",
        PluginName := tagsGet s.Tags "plugin_name",
        ManagedBy := tagsGet s.Tags "managed_by" } }

/-- Model of `Socket.SetupTypeAndUpstreamTypeByPortOrTags`: the two inner port tests
of the `database` case are successive `if`s, not an `else` chain, exactly as
in the Go switch. -/
def Socket.SetupTypeAndUpstreamTypeByPortOrTags (s : Socket) : Socket :=
  if s.UpstreamType = "" then
    let s := { s with UpstreamType := "http" }
    if s.SocketType ≠ "" then
      if s.SocketType = "mysql" then { s with UpstreamType := "mysql", SocketType := "database" }
      else if s.SocketType = "postgres" then { s with UpstreamType := "postgres", SocketType := "database" }
      else if s.SocketType = "database" then
        let s := if s.TargetPort = 3306 then { s with UpstreamType := "mysql" } else s
        if s.TargetPort = 5432 then { s with UpstreamType := "postgres" } else s
      else if s.SocketType = "https" then { s with SocketType := "http", UpstreamType := "https" }
      else s
    else
      if s.TargetPort = 3306 then { s with SocketType := "database", UpstreamType := "mysql" }
      else if s.TargetPort = 5432 then { s with SocketType := "database", UpstreamType := "postgres" }
      else if s.TargetPort = 22 then { s with SocketType := "ssh" }
      else if s.TargetPort = 80 then { s with SocketType := "http" }
      else if s.TargetPort = 443 then { s with SocketType := "http", UpstreamType := "https" }
      else s
  else s

/-- C1: serializing a ConnectorData to its tags map and rebuilding a
ConnectorData from that map restores the original value exactly; an empty
`ManagedBy` is omitted from the tags and read back as `""`, and `Port`
round-trips through its decimal string. -/
theorem C1_connector_data_tag_roundtrip (s : Socket) (c : ConnectorData)
    (h : s.Tags = c.Tags) :
    (Socket.BuildConnectorDataByTags s).ConnectorData = some c := by
  obtain ⟨n, cn, ty, p, th, pg, et, ii, pn, mb⟩ := c
  by_cases hm : mb = ""
  · subst hm
    have hTags : (ConnectorData.mk n cn ty p th pg et ii pn "").Tags
        = [("name", n), ("connector_name", cn), ("type", ty),
           ("target_port", Itoa p), ("target_hostname", th),
           ("ec2_tag", et), ("policy_group", pg),
           ("instance_id", ii), ("plugin_name", pn)] := by
      unfold ConnectorData.Tags
      rw [if_neg (by simp)]
    rw [hTags] at h
    unfold Socket.BuildConnectorDataByTags
    rw [h, if_neg (by simp)]
    show some (ConnectorData.mk n cn ty (Atoi (Itoa p)) th pg et ii pn "")
      = some (ConnectorData.mk n cn ty p th pg et ii pn "")
    rw [Atoi_Itoa]
  · have hTags : (ConnectorData.mk n cn ty p th pg et ii pn mb).Tags
        = [("name", n), ("connector_name", cn), ("type", ty),
           ("target_port", Itoa p), ("target_hostname", th),
           ("ec2_tag", et), ("policy_group", pg),
           ("instance_id", ii), ("plugin_name", pn), ("managed_by", mb)] := by
      unfold ConnectorData.Tags
      rw [if_pos hm]
      rfl
    rw [hTags] at h
    unfold Socket.BuildConnectorDataByTags
    rw [h, if_neg (by simp)]
    show some (ConnectorData.mk n cn ty (Atoi (Itoa p)) th pg et ii pn mb)
      = some (ConnectorData.mk n cn ty p th pg et ii pn mb)
    rw [Atoi_Itoa]

/-- C1 witness: a concrete ConnectorData (with empty ManagedBy) rebuilt from
its own tags. -/
theorem C1_connector_data_tag_roundtrip_witness :
    Socket.ConnectorData
      (Socket.BuildConnectorDataByTags
        { Tags := (ConnectorData.mk "db-1" "c1" "database" 3306 "h" "" "" "" "static" "").Tags })
      = some (ConnectorData.mk "db-1" "c1" "database" 3306 "h" "" "" "" "static" "") :=
  C1_connector_data_tag_roundtrip
    { Tags := (ConnectorData.mk "db-1" "c1" "database" 3306 "h" "" "" "" "static" "").Tags }
    (ConnectorData.mk "db-1" "c1" "database" 3306 "h" "" "" "" "static" "") rfl

/-- C2 counterexample: for a socket with empty upstream_type and empty
socket_type and target_port 22, inference sets socket_type to `"ssh"` but
leaves upstream_type at the preset `"http"` — the inferred upstream_type is
not `"ssh"` as the §3 table states. -/
theorem C2_port22_upstream_counterexample :
    (Socket.SetupTypeAndUpstreamTypeByPortOrTags { TargetPort := 22 }).UpstreamType = "http"
    ∧ (Socket.SetupTypeAndUpstreamTypeByPortOrTags { TargetPort := 22 }).SocketType = "ssh"
    ∧ (Socket.SetupTypeAndUpstreamTypeByPortOrTags { TargetPort := 22 }).UpstreamType ≠ "ssh" :=
  ⟨rfl, rfl, by decide⟩

/-- C2 (amended): on a socket with empty upstream_type, inference gives:
with empty socket_type, port 3306 ↦ (database, mysql), 5432 ↦ (database,
postgres), 22 ↦ socket_type ssh with upstream_type left at the default http,
80 ↦ (http, http), 443 ↦ (http, https); an explicit socket_type mysql or
postgres is promoted to database with the matching upstream_type. -/
theorem C2_type_inference_table (s : Socket) (hu : s.UpstreamType = "") :
    (s.SocketType = "" → s.TargetPort = 3306 →
        (s.SetupTypeAndUpstreamTypeByPortOrTags).SocketType = "database"
        ∧ (s.SetupTypeAndUpstreamTypeByPortOrTags).UpstreamType = "mysql")
    ∧ (s.SocketType = "" → s.TargetPort = 5432 →
        (s.SetupTypeAndUpstreamTypeByPortOrTags).SocketType = "database"
        ∧ (s.SetupTypeAndUpstreamTypeByPortOrTags).UpstreamType = "postgres")
    ∧ (s.SocketType = "" → s.TargetPort = 22 →
        (s.SetupTypeAndUpstreamTypeByPortOrTags).SocketType = "ssh"
        ∧ (s.SetupTypeAndUpstreamTypeByPortOrTags).UpstreamType = "http")
    ∧ (s.SocketType = "" → s.TargetPort = 80 →
        (s.SetupTypeAndUpstreamTypeByPortOrTags).SocketType = "http"
        ∧ (s.SetupTypeAndUpstreamTypeByPortOrTags).UpstreamType = "http")
    ∧ (s.SocketType = "" → s.TargetPort = 443 →
        (s.SetupTypeAndUpstreamTypeByPortOrTags).SocketType = "http"
        ∧ (s.SetupTypeAndUpstreamTypeByPortOrTags).UpstreamType = "https")
    ∧ (s.SocketType = "mysql" →
        (s.SetupTypeAndUpstreamTypeByPortOrTags).SocketType = "database"
        ∧ (s.SetupTypeAndUpstreamTypeByPortOrTags).UpstreamType = "mysql")
    ∧ (s.SocketType = "postgres" →
        (s.SetupTypeAndUpstreamTypeByPortOrTags).SocketType = "database"
        ∧ (s.SetupTypeAndUpstreamTypeByPortOrTags).UpstreamType = "postgres") := by
  unfold Socket.SetupTypeAndUpstreamTypeByPortOrTags
  refine ⟨?_, ?_, ?_, ?_, ?_, ?_, ?_⟩ <;> intro h1 <;> try intro h2
  all_goals simp [hu, h1]
  all_goals simp [h2]

/-- C2 witness: every row of the amended table evaluated at a concrete
socket. -/
theorem C2_type_inference_table_witness :
    ((Socket.SetupTypeAndUpstreamTypeByPortOrTags { TargetPort := 3306 }).SocketType = "database"
      ∧ (Socket.SetupTypeAndUpstreamTypeByPortOrTags { TargetPort := 3306 }).UpstreamType = "mysql")
    ∧ ((Socket.SetupTypeAndUpstreamTypeByPortOrTags { TargetPort := 5432 }).SocketType = "database"
      ∧ (Socket.SetupTypeAndUpstreamTypeByPortOrTags { TargetPort := 5432 }).UpstreamType = "postgres")
    ∧ ((Socket.SetupTypeAndUpstreamTypeByPortOrTags { TargetPort := 22 }).SocketType = "ssh"
      ∧ (Socket.SetupTypeAndUpstreamTypeByPortOrTags { TargetPort := 22 }).UpstreamType = "http")
    ∧ ((Socket.SetupTypeAndUpstreamTypeByPortOrTags { TargetPort := 80 }).SocketType = "http"
      ∧ (Socket.SetupTypeAndUpstreamTypeByPortOrTags { TargetPort := 80 }).UpstreamType = "http")
    ∧ ((Socket.SetupTypeAndUpstreamTypeByPortOrTags { TargetPort := 443 }).SocketType = "http"
      ∧ (Socket.SetupTypeAndUpstreamTypeByPortOrTags { TargetPort := 443 }).UpstreamType = "https")
    ∧ ((Socket.SetupTypeAndUpstreamTypeByPortOrTags { SocketType := "mysql" }).SocketType = "database"
      ∧ (Socket.SetupTypeAndUpstreamTypeByPortOrTags { SocketType := "mysql" }).UpstreamType = "mysql")
    ∧ ((Socket.SetupTypeAndUpstreamTypeByPortOrTags { SocketType := "postgres" }).SocketType = "database"
      ∧ (Socket.SetupTypeAndUpstreamTypeByPortOrTags { SocketType := "postgres" }).UpstreamType = "postgres") :=
  ⟨(C2_type_inference_table { TargetPort := 3306 } rfl).1 rfl rfl,
   (C2_type_inference_table { TargetPort := 5432 } rfl).2.1 rfl rfl,
   (C2_type_inference_table { TargetPort := 22 } rfl).2.2.1 rfl rfl,
   (C2_type_inference_table { TargetPort := 80 } rfl).2.2.2.1 rfl rfl,
   (C2_type_inference_table { TargetPort := 443 } rfl).2.2.2.2.1 rfl rfl,
   (C2_type_inference_table { SocketType := "mysql" } rfl).2.2.2.2.2.1 rfl,
   (C2_type_inference_table { SocketType := "postgres" } rfl).2.2.2.2.2.2 rfl⟩

/-! ## core.go: slice comparison

`stringSlicesEqual` calls `sort.Strings` on BOTH argument slices before
comparing, and Go slices alias their backing arrays, so the sorting is
visible to the caller.  The model returns, along with the comparison
result, the final contents of the two slices. -/

/-- Lexicographic comparison of character lists: the ascending order
`sort.Strings` uses (UTF-8 byte order coincides with code-point order). -/
def lexLe : List Char → List Char → Bool
  | [], _ => true
  | _ :: _, [] => false
  | a :: as, b :: bs => if a < b then true else if b < a then false else lexLe as bs

theorem lexLe_cons_iff (a b : Char) (as bs : List Char) :
    lexLe (a :: as) (b :: bs) = true ↔ a < b ∨ (a = b ∧ lexLe as bs = true) := by
  show (if a < b then true else if b < a then false else lexLe as bs) = true ↔ _
  by_cases hab : a < b
  · rw [if_pos hab]
    simp [hab]
  · rw [if_neg hab]
    by_cases hba : b < a
    · rw [if_pos hba]
      constructor
      · intro h; cases h
      · rintro (h | ⟨h, _⟩)
        · exact absurd h hab
        · subst h; exact absurd hba (lt_irrefl a)
    · rw [if_neg hba]
      have heq : a = b := le_antisymm (not_lt.mp hba) (not_lt.mp hab)
      constructor
      · intro h; exact Or.inr ⟨heq, h⟩
      · rintro (h | ⟨_, h⟩)
        · exact absurd h hab
        · exact h

theorem lexLe_total (x y : List Char) : lexLe x y = true ∨ lexLe y x = true := by
  induction x generalizing y with
  | nil => exact Or.inl rfl
  | cons a as ih =>
    cases y with
    | nil => exact Or.inr rfl
    | cons b bs =>
      rcases lt_trichotomy a b with h | h | h
      · exact Or.inl ((lexLe_cons_iff a b as bs).mpr (Or.inl h))
      · rcases ih bs with h2 | h2
        · exact Or.inl ((lexLe_cons_iff a b as bs).mpr (Or.inr ⟨h, h2⟩))
        · exact Or.inr ((lexLe_cons_iff b a bs as).mpr (Or.inr ⟨h.symm, h2⟩))
      · exact Or.inr ((lexLe_cons_iff b a bs as).mpr (Or.inl h))

theorem lexLe_trans (x y z : List Char) (h1 : lexLe x y = true) (h2 : lexLe y z = true) :
    lexLe x z = true := by
  induction x generalizing y z with
  | nil => rfl
  | cons a as ih =>
    cases y with
    | nil => cases h1
    | cons b bs =>
      cases z with
      | nil => cases h2
      | cons c cs =>
        rcases (lexLe_cons_iff a b as bs).mp h1 with hab | ⟨hab, hr1⟩
        · rcases (lexLe_cons_iff b c bs cs).mp h2 with hbc | ⟨hbc, _⟩
          · exact (lexLe_cons_iff a c as cs).mpr (Or.inl (lt_trans hab hbc))
          · exact (lexLe_cons_iff a c as cs).mpr (Or.inl (hbc ▸ hab))
        · rcases (lexLe_cons_iff b c bs cs).mp h2 with hbc | ⟨hbc, hr2⟩
          · exact (lexLe_cons_iff a c as cs).mpr (Or.inl (hab ▸ hbc))
          · exact (lexLe_cons_iff a c as cs).mpr (Or.inr ⟨hab.trans hbc, ih bs cs hr1 hr2⟩)

theorem lexLe_antisymm (x y : List Char) (h1 : lexLe x y = true) (h2 : lexLe y x = true) :
    x = y := by
  induction x generalizing y with
  | nil =>
    cases y with
    | nil => rfl
    | cons b bs => cases h2
  | cons a as ih =>
    cases y with
    | nil => cases h1
    | cons b bs =>
      rcases (lexLe_cons_iff a b as bs).mp h1 with hab | ⟨hab, hr1⟩
      · rcases (lexLe_cons_iff b a bs as).mp h2 with hba | ⟨hba, _⟩
        · exact absurd (lt_trans hab hba) (lt_irrefl a)
        · exact absurd (hba ▸ hab) (lt_irrefl a)
      · rcases (lexLe_cons_iff b a bs as).mp h2 with hba | ⟨hba, hr2⟩
        · exact absurd (hab ▸ hba) (lt_irrefl b)
        · rw [hab, ih bs hr1 hr2]

/-- The ascending string order of `sort.Strings`, as a relation. -/
def strLeP (a b : String) : Prop := lexLe a.data b.data = true

instance strLePDecidable : DecidableRel strLeP := fun a b => by
  unfold strLeP
  infer_instance

instance strLePTotal : IsTotal String strLeP :=
  ⟨fun a b => lexLe_total a.data b.data⟩

instance strLePTrans : IsTrans String strLeP :=
  ⟨fun a b c h1 h2 => lexLe_trans a.data b.data c.data h1 h2⟩

instance strLePAntisymm : IsAntisymm String strLeP :=
  ⟨fun a b h1 h2 => by
    have h := lexLe_antisymm a.data b.data h1 h2
    cases a; cases b
    exact congrArg String.mk h⟩

/-- The sorted permutation `sort.Strings` produces (insertion sort is
observationally identical to Go's unstable sort on a total order). -/
def sortStrings (l : List String) : List String := l.insertionSort strLeP

/-- Model of `stringSlicesEqual` (core.go): sort both slices in place, then compare
lengths and elements.  Components 2 and 3 are the final states of the two
argument slices. -/
def stringSlicesEqual (a b : List String) : Bool × List String × List String :=
  let a := sortStrings a
  let b := sortStrings b
  if a.length ≠ b.length then (false, a, b)
  else ((a.zip b).all fun p => p.1 == p.2, a, b)

theorem sortStrings_perm (l : List String) : (sortStrings l).Perm l :=
  List.perm_insertionSort strLeP l

theorem sortStrings_sorted (l : List String) : List.Sorted strLeP (sortStrings l) :=
  List.sorted_insertionSort strLeP l

theorem sortStrings_idem (l : List String) : sortStrings (sortStrings l) = sortStrings l :=
  List.eq_of_perm_of_sorted (sortStrings_perm (sortStrings l))
    (sortStrings_sorted _) (sortStrings_sorted _)

theorem sortStrings_eq_iff_perm (a b : List String) :
    sortStrings a = sortStrings b ↔ a.Perm b := by
  constructor
  · intro h
    exact ((sortStrings_perm a).symm.trans (h ▸ sortStrings_perm b : (sortStrings a).Perm b))
  · intro h
    exact List.eq_of_perm_of_sorted
      ((sortStrings_perm a).trans (h.trans (sortStrings_perm b).symm))
      (sortStrings_sorted a) (sortStrings_sorted b)

theorem zip_all_beq_iff (l₁ l₂ : List String) (h : l₁.length = l₂.length) :
    ((l₁.zip l₂).all fun p => p.1 == p.2) = true ↔ l₁ = l₂ := by
  induction l₁ generalizing l₂ with
  | nil => cases l₂ with
    | nil => simp
    | cons b t => simp at h
  | cons a t ih => cases l₂ with
    | nil => simp at h
    | cons b t' =>
      simp only [List.length_cons, Nat.add_right_cancel_iff] at h
      simp [List.zip_cons_cons, List.all_cons, ih t' h, beq_iff_eq, Bool.and_eq_true,
        List.cons.injEq]

theorem stringSlicesEqual_fst_iff (a b : List String) :
    (stringSlicesEqual a b).1 = true ↔ a.Perm b := by
  rw [← sortStrings_eq_iff_perm]
  unfold stringSlicesEqual
  by_cases hlen : (sortStrings a).length ≠ (sortStrings b).length
  · rw [if_pos hlen]
    constructor
    · intro h
      simp at h
    · intro he
      exact absurd (congrArg List.length he) hlen
  · rw [if_neg hlen]
    push_neg at hlen
    exact zip_all_beq_iff _ _ hlen

theorem stringSlicesEqual_snd (a b : List String) :
    (stringSlicesEqual a b).2.1 = sortStrings a := by
  unfold stringSlicesEqual
  dsimp only
  split <;> rfl

theorem stringSlicesEqual_trd (a b : List String) :
    (stringSlicesEqual a b).2.2 = sortStrings b := by
  unfold stringSlicesEqual
  dsimp only
  split <;> rfl

/-- The double comparison pattern `stringSlicesEqual(x, y) &&
stringSlicesEqual(y, x)` of `CheckAndUpdateSocket`, with the in-place
sorting threaded through; Go `&&` short-circuits, so the second call is
skipped when the first returns false. Returns (result, final `x`, final
`y`). -/
def cmpPair (x y : List String) : Bool × List String × List String :=
  let r1 := stringSlicesEqual x y
  if r1.1 then
    let r2 := stringSlicesEqual r1.2.2 r1.2.1
    (r2.1, r2.2.2, r2.2.1)
  else (false, r1.2.1, r1.2.2)

theorem cmpPair_snd (x y : List String) : (cmpPair x y).2.1 = sortStrings x := by
  unfold cmpPair
  dsimp only
  split
  · simp [stringSlicesEqual_snd, stringSlicesEqual_trd, sortStrings_idem]
  · rw [stringSlicesEqual_snd]

theorem cmpPair_trd (x y : List String) : (cmpPair x y).2.2 = sortStrings y := by
  unfold cmpPair
  dsimp only
  split
  · simp [stringSlicesEqual_snd, stringSlicesEqual_trd, sortStrings_idem]
  · rw [stringSlicesEqual_trd]

theorem cmpPair_fst (x y : List String) :
    (cmpPair x y).1 = (stringSlicesEqual x y).1 := by
  unfold cmpPair
  dsimp only
  split
  · next hr1 =>
    have hperm : x.Perm y := (stringSlicesEqual_fst_iff x y).mp hr1
    rw [hr1]
    rw [stringSlicesEqual_snd, stringSlicesEqual_trd]
    refine (stringSlicesEqual_fst_iff _ _).mpr ?_
    exact ((sortStrings_perm y).trans hperm.symm).trans (sortStrings_perm x).symm
  · next hr1 =>
    simp only [Bool.not_eq_true] at hr1
    rw [hr1]

theorem cmpPair_fst_iff (x y : List String) :
    (cmpPair x y).1 = true ↔ x.Perm y := by
  rw [cmpPair_fst]
  exact stringSlicesEqual_fst_iff x y

/-! ## core.go: reconciler model

The control-plane client is an external collaborator (spec §4.A, interface
only); it is modelled as an environment of response functions.  Every
request the reconciler issues, and every event it sends on the connect
channel, is recorded in a trace in program order. -/

/-- One observable action of a reconciliation tick: a control-plane request
or a connect-channel send. -/
inductive Event
  | createEv (body : Socket)
  | updateEv (socketID : String) (body : Socket)
  | deleteEv (socketID : String)
  | applyPoliciesEv (socket : Socket) (policyNames : List String)
  | disconnectEv (key : String) (socket : Socket)
  | connectEv (key : String) (socket : Socket)
  deriving DecidableEq

/-- Configuration and control-plane responses seen by one tick.  `Except
Unit` models the Go `error` results that abort the tick. -/
structure Env where
  connectorName : String
  pluginName : String
  principal : String
  createSocket : Socket → Except Unit Socket
  updateSocket : String → Socket → Except Unit Unit
  deleteSocket : String → Except Unit Unit

/-- A Go `map[string]models.Socket` as a lookup function. -/
def SMap := String → Option Socket

/-- The empty socket map. -/
def mapEmpty : SMap := fun _ => none

/-- Go map assignment `m[k] = v`. -/
def mapUpdate (m : SMap) (k : String) (v : Socket) : SMap :=
  fun x => if x = k then some v else m x

/-- Model of `socket.ConnectorData.Key()`.  The reconciler calls this only after
ConnectorData has been installed; `none` (which would be a Go nil-pointer
panic) is mapped to the empty key. -/
def socketKey (s : Socket) : String :=
  match s.ConnectorData with
  | some cd => cd.Key
  | none => ""

/-- The POST body used by `CreateSocketAndTunnel`: the description is
defaulted to `created by <connector>` when empty. -/
def createBody (env : Env) (s : Socket) : Socket :=
  if s.Description = "" then { s with Description := "created by " ++ env.connectorName } else s

/-- Model of `ConnectorCore.CreateSocketAndTunnel`: POST the socket, apply policies
(the result is only logged), and take the local policy names over onto the
created socket. -/
def CreateSocketAndTunnel (env : Env) (s : Socket) : Except Unit Socket × List Event :=
  let body := createBody env s
  match env.createSocket body with
  | .error e => (.error e, [Event.createEv body])
  | .ok created =>
      (.ok { created with PolicyNames := s.PolicyNames },
       [Event.createEv body, Event.applyPoliciesEv created s.PolicyNames])

/-- Model of `ConnectorCore.RecreateSocket`: DELETE the old socket id, create from
the local socket, rebuild ConnectorData from the created socket's tags. -/
def RecreateSocket (env : Env) (socketID : String) (localSocket : Socket) :
    Except Unit Socket × List Event :=
  match env.deleteSocket socketID with
  | .error e => (.error e, [Event.deleteEv socketID])
  | .ok _ =>
    match CreateSocketAndTunnel env localSocket with
    | (.error e, evs) => (.error e, Event.deleteEv socketID :: evs)
    | (.ok created, evs) =>
        (.ok created.BuildConnectorDataByTags, Event.deleteEv socketID :: evs)

/-- The four-way email comparison at the top of `CheckAndUpdateSocket`:
Go's `check`, together with the post-comparison socket copies (whose email
slices have been sorted in place; the domain comparison is skipped by `&&`
short-circuit when the address comparison already failed). -/
def compareFields (apiSocket localSocket : Socket) : Bool × Socket × Socket :=
  let e := cmpPair apiSocket.AllowedEmailAddresses localSocket.AllowedEmailAddresses
  let a1 := { apiSocket with AllowedEmailAddresses := e.2.1 }
  let l1 := { localSocket with AllowedEmailAddresses := e.2.2 }
  if e.1 then
    let d := cmpPair a1.AllowedEmailDomains l1.AllowedEmailDomains
    (d.1, { a1 with AllowedEmailDomains := d.2.1 }, { l1 with AllowedEmailDomains := d.2.2 })
  else (false, a1, l1)

/-- The policy-name comparison of `CheckAndUpdateSocket`: run only when
either side is non-empty, and (by `&&` short-circuit) only when `check` is
still true. -/
def compareWithPolicies (apiSocket localSocket : Socket) : Bool × Socket × Socket :=
  let r := compareFields apiSocket localSocket
  let check := r.1
  let a := r.2.1
  let l := r.2.2
  if a.PolicyNames.length > 0 ∨ l.PolicyNames.length > 0 then
    if check then
      let p := cmpPair a.PolicyNames l.PolicyNames
      (p.1, { a with PolicyNames := p.2.1 }, { l with PolicyNames := p.2.2 })
    else (check, a, l)
  else (check, a, l)

/-- Negated form of the update condition of `CheckAndUpdateSocket`: no
update is issued exactly when `check` holds and the four scalar tracked
fields agree (the Go code tests the disjunction of the negations). -/
def socketsAgree (apiSocket localSocket : Socket) : Prop :=
  (compareWithPolicies apiSocket localSocket).1 = true
  ∧ (compareWithPolicies apiSocket localSocket).2.1.UpstreamHttpHostname
      = (compareWithPolicies apiSocket localSocket).2.2.UpstreamHttpHostname
  ∧ (compareWithPolicies apiSocket localSocket).2.1.UpstreamUsername
      = (compareWithPolicies apiSocket localSocket).2.2.UpstreamUsername
  ∧ (compareWithPolicies apiSocket localSocket).2.1.UpstreamType
      = (compareWithPolicies apiSocket localSocket).2.2.UpstreamType
  ∧ (compareWithPolicies apiSocket localSocket).2.1.ConnectorAuthenticationEnabled
      = (compareWithPolicies apiSocket localSocket).2.2.ConnectorAuthenticationEnabled

instance socketsAgreeDecidable (a l : Socket) : Decidable (socketsAgree a l) := by
  unfold socketsAgree
  infer_instance

/-- The api socket copy of `CheckAndUpdateSocket` after the local values
have been assigned onto it (upstream_type reset, cloud auth forced), before
the policy names are taken over: this is the socket `ApplyPolicies` sees. -/
def updatedApiSocketPrePolicies (apiSocket localSocket : Socket) : Socket :=
  { (compareWithPolicies apiSocket localSocket).2.1 with
    AllowedEmailAddresses := (compareWithPolicies apiSocket localSocket).2.2.AllowedEmailAddresses,
    AllowedEmailDomains := (compareWithPolicies apiSocket localSocket).2.2.AllowedEmailDomains,
    UpstreamHttpHostname := (compareWithPolicies apiSocket localSocket).2.2.UpstreamHttpHostname,
    UpstreamUsername := (compareWithPolicies apiSocket localSocket).2.2.UpstreamUsername,
    ConnectorAuthenticationEnabled :=
      (compareWithPolicies apiSocket localSocket).2.2.ConnectorAuthenticationEnabled,
    UpstreamType := "",
    CloudAuthEnabled := true,
    Tags := (compareWithPolicies apiSocket localSocket).2.2.Tags }

/-- The PUT body of `CheckAndUpdateSocket`: the socket above with the local
policy names taken over. -/
def updateBody (apiSocket localSocket : Socket) : Socket :=
  { updatedApiSocketPrePolicies apiSocket localSocket with
    PolicyNames := (compareWithPolicies apiSocket localSocket).2.2.PolicyNames }

/-- Model of `ConnectorCore.CheckAndUpdateSocket`: the returned socket, the final
states of the two socket copies (the in-place slice sorting included), and
the issued events. -/
def CheckAndUpdateSocket (env : Env) (apiSocket localSocket : Socket) :
    Except Unit Socket × Socket × Socket × List Event :=
  let r := compareWithPolicies apiSocket localSocket
  if socketsAgree apiSocket localSocket then (.ok r.2.1, r.2.1, r.2.2, [])
  else
    let ev1 := Event.applyPoliciesEv (updatedApiSocketPrePolicies apiSocket localSocket)
      r.2.2.PolicyNames
    let a3 := updateBody apiSocket localSocket
    match env.updateSocket a3.SocketID a3 with
    | .error e => (.error e, a3, r.2.2, [ev1, Event.updateEv a3.SocketID a3])
    | .ok _ => (.ok a3, a3, r.2.2, [ev1, Event.updateEv a3.SocketID a3])

/-- Model of `ConnectorCore.CheckSocketsToDelete`: walk the control-plane sockets;
skip unowned keys, recreate on ConnectorData mismatch, disconnect-and-delete
owned sockets that are gone locally.  Returns the final local map and the
events in program order. -/
def CheckSocketsToDelete (env : Env) :
    List Socket → SMap → Except Unit SMap × List Event
  | [], m => (.ok m, [])
  | apiSocket :: rest, m =>
    match apiSocket.ConnectorData with
    | none => CheckSocketsToDelete env rest m
    | some cd =>
      if cd.Key = "" then CheckSocketsToDelete env rest m
      else
        match m cd.Key with
        | some s =>
          if s.ConnectorData = some cd then CheckSocketsToDelete env rest m
          else
            match RecreateSocket env apiSocket.SocketID s with
            | (.error e, evs) => (.error e, evs)
            | (.ok created, evs) =>
              match CheckSocketsToDelete env rest (mapUpdate m cd.Key created) with
              | (r, evs2) => (r, evs ++ evs2)
        | none =>
          if cd.Connector = env.connectorName ∧ cd.PluginName = env.pluginName then
            match env.deleteSocket apiSocket.SocketID with
            | .error e =>
                (.error e, [Event.disconnectEv cd.Key apiSocket, Event.deleteEv apiSocket.SocketID])
            | .ok _ =>
              match CheckSocketsToDelete env rest m with
              | (r, evs2) =>
                  (r, Event.disconnectEv cd.Key apiSocket :: Event.deleteEv apiSocket.SocketID :: evs2)
          else CheckSocketsToDelete env rest m

/-- Model of `ConnectorCore.CheckSocketsToCreate`: walk the local sockets; create the
ones without a server match, otherwise run the field update; collect the
sockets to connect. -/
def CheckSocketsToCreate (env : Env) :
    List Socket → SMap → Except Unit (List Socket) × List Event
  | [], _ => (.ok [], [])
  | localSocket :: rest, socketsFromApiMap =>
    match socketsFromApiMap (socketKey localSocket) with
    | none =>
      match CreateSocketAndTunnel env localSocket with
      | (.error e, evs) => (.error e, evs)
      | (.ok created, evs) =>
        let created := { created with PluginName := env.pluginName }
        let created := created.BuildConnectorData env.connectorName env.principal
        match CheckSocketsToCreate env rest socketsFromApiMap with
        | (.error e, evs2) => (.error e, evs ++ evs2)
        | (.ok tail, evs2) => (.ok (created :: tail), evs ++ evs2)
    | some apiSocket =>
      match CheckAndUpdateSocket env apiSocket localSocket with
      | (.error e, _, _, evs) => (.error e, evs)
      | (.ok updated, _, _, evs) =>
        match CheckSocketsToCreate env rest socketsFromApiMap with
        | (.error e, evs2) => (.error e, evs ++ evs2)
        | (.ok tail, evs2) => (.ok (updated :: tail), evs ++ evs2)

/-- The per-socket bootstrap of discovered sockets at the top of
`SocketsCoreHandler`: plugin name, name sanitization, ConnectorData, tags
mirror, type inference. -/
def bootstrapLocalSocket (env : Env) (socket : Socket) : Socket :=
  let socket := { socket with PluginName := env.pluginName }
  let socket := socket.SanitizeName
  let socket := socket.BuildConnectorData env.connectorName env.principal
  let socket := { socket with Tags := (socket.ConnectorData.getD {}).Tags }
  socket.SetupTypeAndUpstreamTypeByPortOrTags

/-- The per-socket bootstrap of control-plane sockets in
`SocketsCoreHandler`: rebuild ConnectorData from tags and, for owned keys,
merge the policy names carried by `Policies`. -/
def bootstrapApiSocket (s : Socket) : Socket :=
  let s := s.BuildConnectorDataByTags
  match s.ConnectorData with
  | some cd =>
    if cd.Key ≠ "" then { s with PolicyNames := s.PolicyNames ++ s.Policies.map Policy.Name }
    else s
  | none => s

/-- The map of bootstrapped discovered sockets, keyed by ConnectorData key
(later entries overwrite earlier ones, as Go map assignment does). -/
def buildLocalMap (env : Env) (discovered : List Socket) : SMap :=
  (discovered.map (bootstrapLocalSocket env)).foldl
    (fun m s => mapUpdate m (socketKey s) s) mapEmpty

/-- The map of bootstrapped control-plane sockets with non-empty keys. -/
def buildApiMap (socketsFromApi : List Socket) : SMap :=
  (socketsFromApi.map bootstrapApiSocket).foldl
    (fun m s => if socketKey s ≠ "" then mapUpdate m (socketKey s) s else m) mapEmpty

/-- Model of `ConnectorCore.SocketsCoreHandler`: bootstrap both inventories, run the
delete pass, then the create/update pass; the trace is the concatenation of
the two passes' events. -/
def SocketsCoreHandler (env : Env) (socketsToUpdate : List Socket) (socketsFromApi : List Socket) :
    Except Unit (List Socket) × List Event :=
  let discoveredSockets := socketsToUpdate.map (bootstrapLocalSocket env)
  let localSocketsMap := buildLocalMap env socketsToUpdate
  let apiSockets := socketsFromApi.map bootstrapApiSocket
  let socketApiMap := buildApiMap socketsFromApi
  match CheckSocketsToDelete env apiSockets localSocketsMap with
  | (.error e, evs) => (.error e, evs)
  | (.ok _, evs) =>
    match CheckSocketsToCreate env discoveredSockets socketApiMap with
    | (.error e, evs2) => (.error e, evs ++ evs2)
    | (.ok socketsToConnect, evs2) => (.ok socketsToConnect, evs ++ evs2)

/-! ## Shape of the comparison phase -/

theorem compareFields_emails (a l : Socket) :
    (compareFields a l).2.1.AllowedEmailAddresses = sortStrings a.AllowedEmailAddresses
    ∧ (compareFields a l).2.2.AllowedEmailAddresses = sortStrings l.AllowedEmailAddresses := by
  unfold compareFields
  dsimp only
  split <;> simp [cmpPair_snd, cmpPair_trd]

theorem compareFields_domains (a l : Socket) :
    (compareFields a l).2.1.AllowedEmailDomains.Perm a.AllowedEmailDomains
    ∧ (compareFields a l).2.2.AllowedEmailDomains.Perm l.AllowedEmailDomains
    ∧ ((compareFields a l).1 = true →
        (compareFields a l).2.1.AllowedEmailDomains = sortStrings a.AllowedEmailDomains
        ∧ (compareFields a l).2.2.AllowedEmailDomains = sortStrings l.AllowedEmailDomains) := by
  unfold compareFields
  dsimp only
  split
  · simp [cmpPair_snd, cmpPair_trd, sortStrings_perm]
  · simp [List.Perm.refl]

theorem compareFields_frame (a l : Socket) :
    ((compareFields a l).2.1.SocketID = a.SocketID
      ∧ (compareFields a l).2.1.PolicyNames = a.PolicyNames
      ∧ (compareFields a l).2.1.UpstreamHttpHostname = a.UpstreamHttpHostname
      ∧ (compareFields a l).2.1.UpstreamUsername = a.UpstreamUsername
      ∧ (compareFields a l).2.1.UpstreamType = a.UpstreamType
      ∧ (compareFields a l).2.1.ConnectorAuthenticationEnabled = a.ConnectorAuthenticationEnabled
      ∧ (compareFields a l).2.1.Tags = a.Tags)
    ∧ ((compareFields a l).2.2.SocketID = l.SocketID
      ∧ (compareFields a l).2.2.PolicyNames = l.PolicyNames
      ∧ (compareFields a l).2.2.UpstreamHttpHostname = l.UpstreamHttpHostname
      ∧ (compareFields a l).2.2.UpstreamUsername = l.UpstreamUsername
      ∧ (compareFields a l).2.2.UpstreamType = l.UpstreamType
      ∧ (compareFields a l).2.2.ConnectorAuthenticationEnabled = l.ConnectorAuthenticationEnabled
      ∧ (compareFields a l).2.2.Tags = l.Tags) := by
  unfold compareFields
  dsimp only
  split <;> simp

theorem compareWithPolicies_emails (a l : Socket) :
    (compareWithPolicies a l).2.1.AllowedEmailAddresses = sortStrings a.AllowedEmailAddresses
    ∧ (compareWithPolicies a l).2.2.AllowedEmailAddresses = sortStrings l.AllowedEmailAddresses := by
  unfold compareWithPolicies
  dsimp only
  split
  · split
    · simp [compareFields_emails]
    · exact compareFields_emails a l
  · exact compareFields_emails a l

theorem compareWithPolicies_domains (a l : Socket) :
    (compareWithPolicies a l).2.1.AllowedEmailDomains.Perm a.AllowedEmailDomains
    ∧ (compareWithPolicies a l).2.2.AllowedEmailDomains.Perm l.AllowedEmailDomains
    ∧ ((compareWithPolicies a l).1 = true →
        (compareWithPolicies a l).2.1.AllowedEmailDomains = sortStrings a.AllowedEmailDomains
        ∧ (compareWithPolicies a l).2.2.AllowedEmailDomains = sortStrings l.AllowedEmailDomains) := by
  unfold compareWithPolicies
  dsimp only
  split
  · split
    · next hcheck =>
      have h := (compareFields_domains a l).2.2 hcheck
      simp [h.1, h.2, (compareFields_domains a l).1, (compareFields_domains a l).2.1,
        sortStrings_perm]
    · next hcheck =>
      simp only [Bool.not_eq_true] at hcheck
      refine ⟨(compareFields_domains a l).1, (compareFields_domains a l).2.1, ?_⟩
      intro habs
      rw [hcheck] at habs
      cases habs
  · exact compareFields_domains a l

theorem compareWithPolicies_policies (a l : Socket) :
    (compareWithPolicies a l).2.1.PolicyNames.Perm a.PolicyNames
    ∧ (compareWithPolicies a l).2.2.PolicyNames.Perm l.PolicyNames
    ∧ ((compareWithPolicies a l).1 = true →
        (compareWithPolicies a l).2.1.PolicyNames = sortStrings a.PolicyNames
        ∧ (compareWithPolicies a l).2.2.PolicyNames = sortStrings l.PolicyNames) := by
  have hfa := ((compareFields_frame a l).1).2.1
  have hfl := ((compareFields_frame a l).2).2.1
  unfold compareWithPolicies
  dsimp only
  split
  · split
    · simp only [cmpPair_snd, cmpPair_trd, hfa, hfl]
      exact ⟨sortStrings_perm _, sortStrings_perm _, fun _ => ⟨trivial, trivial⟩⟩
    · next hcheck =>
      simp only [Bool.not_eq_true] at hcheck
      refine ⟨?_, ?_, ?_⟩
      · rw [hfa]
      · rw [hfl]
      · intro habs
        rw [hcheck] at habs
        cases habs
  · next hlen =>
    push_neg at hlen
    have ha0 : a.PolicyNames = [] := by
      rw [← hfa]
      exact List.length_eq_zero.mp (Nat.le_zero.mp hlen.1)
    have hl0 : l.PolicyNames = [] := by
      rw [← hfl]
      exact List.length_eq_zero.mp (Nat.le_zero.mp hlen.2)
    refine ⟨?_, ?_, fun _ => ⟨?_, ?_⟩⟩
    · rw [hfa]
    · rw [hfl]
    · rw [hfa, ha0]; simp [sortStrings]
    · rw [hfl, hl0]; simp [sortStrings]

theorem compareWithPolicies_frame (a l : Socket) :
    ((compareWithPolicies a l).2.1.SocketID = a.SocketID
      ∧ (compareWithPolicies a l).2.1.UpstreamHttpHostname = a.UpstreamHttpHostname
      ∧ (compareWithPolicies a l).2.1.UpstreamUsername = a.UpstreamUsername
      ∧ (compareWithPolicies a l).2.1.UpstreamType = a.UpstreamType
      ∧ (compareWithPolicies a l).2.1.ConnectorAuthenticationEnabled
          = a.ConnectorAuthenticationEnabled
      ∧ (compareWithPolicies a l).2.1.Tags = a.Tags)
    ∧ ((compareWithPolicies a l).2.2.SocketID = l.SocketID
      ∧ (compareWithPolicies a l).2.2.UpstreamHttpHostname = l.UpstreamHttpHostname
      ∧ (compareWithPolicies a l).2.2.UpstreamUsername = l.UpstreamUsername
      ∧ (compareWithPolicies a l).2.2.UpstreamType = l.UpstreamType
      ∧ (compareWithPolicies a l).2.2.ConnectorAuthenticationEnabled
          = l.ConnectorAuthenticationEnabled
      ∧ (compareWithPolicies a l).2.2.Tags = l.Tags) := by
  obtain ⟨⟨f1, _, f3, f4, f5, f6, f7⟩, g1, _, g3, g4, g5, g6, g7⟩ := compareFields_frame a l
  unfold compareWithPolicies
  dsimp only
  split
  · split
    · exact ⟨⟨f1, f3, f4, f5, f6, f7⟩, g1, g3, g4, g5, g6, g7⟩
    · exact ⟨⟨f1, f3, f4, f5, f6, f7⟩, g1, g3, g4, g5, g6, g7⟩
  · exact ⟨⟨f1, f3, f4, f5, f6, f7⟩, g1, g3, g4, g5, g6, g7⟩

/-- C6 counterexample: `["a","a"]` and `["a"]` contain exactly the same set
of strings, yet `stringSlicesEqual` reports them unequal — the comparison is
not set equality. -/
theorem C6_set_equality_counterexample :
    (∀ x : String, x ∈ (["a", "a"] : List String) ↔ x ∈ (["a"] : List String))
    ∧ (stringSlicesEqual ["a", "a"] ["a"]).1 = false := by
  constructor
  · intro x
    simp
  · have hnp : ¬ (["a", "a"] : List String).Perm ["a"] := by
      intro hp
      have := hp.length_eq
      simp at this
    cases hb : (stringSlicesEqual ["a", "a"] ["a"]).1
    · rfl
    · exact absurd ((stringSlicesEqual_fst_iff _ _).mp hb) hnp

/-- C6 (amended): the reconciler's slice comparison is multiset equality:
`stringSlicesEqual` reports equal exactly when the two lists are
permutations of one another; and the policy comparison is skipped when both
sides' policy names are empty (`compareWithPolicies` then returns the email
comparison unchanged). -/
theorem C6_slice_comparison_is_multiset_equality (A B : List String) (a l : Socket)
    (h1 : a.PolicyNames = []) (h2 : l.PolicyNames = []) :
    ((stringSlicesEqual A B).1 = true ↔ A.Perm B)
    ∧ compareWithPolicies a l = compareFields a l := by
  refine ⟨stringSlicesEqual_fst_iff A B, ?_⟩
  have hfa := ((compareFields_frame a l).1).2.1
  have hfl := ((compareFields_frame a l).2).2.1
  have hc : ¬ ((compareFields a l).2.1.PolicyNames.length > 0
      ∨ (compareFields a l).2.2.PolicyNames.length > 0) := by
    rw [hfa, hfl, h1, h2]
    simp
  unfold compareWithPolicies
  dsimp only
  rw [if_neg hc]

/-- C6 witness: the amended statement applied to concrete lists (a
permutation pair) and concrete sockets with empty policy names. -/
theorem C6_slice_comparison_witness :
    (((stringSlicesEqual ["b", "a"] ["a", "b"]).1 = true
        ↔ (["b", "a"] : List String).Perm ["a", "b"])
      ∧ compareWithPolicies {} {} = compareFields {} {}) :=
  C6_slice_comparison_is_multiset_equality ["b", "a"] ["a", "b"] {} {} rfl rfl

/-- A control plane whose responses always succeed (used by witnesses). -/
def envStub : Env :=
  { connectorName := "c1", pluginName := "static", principal := "user:u1",
    createSocket := fun s => .ok { s with SocketID := "sid-new" },
    updateSocket := fun _ _ => .ok (),
    deleteSocket := fun _ => .ok () }

/-- C10: `stringSlicesEqual` sorts both of its argument slices in place
(components 2 and 3 of its result are the sorted slices), and consequently,
whenever the comparison in `CheckAndUpdateSocket` finds no divergence — so
no update is sent and the event trace is empty — both socket copies are
still left with their AllowedEmailAddresses, AllowedEmailDomains and
PolicyNames slices permuted into sorted order. -/
theorem C10_comparison_sorts_slices_in_place (x y : List String) (env : Env) (a l : Socket)
    (h : socketsAgree a l) :
    ((stringSlicesEqual x y).2.1 = sortStrings x
      ∧ (stringSlicesEqual x y).2.2 = sortStrings y)
    ∧ (CheckAndUpdateSocket env a l).2.2.2 = []
    ∧ (List.Sorted strLeP (CheckAndUpdateSocket env a l).2.1.AllowedEmailAddresses
      ∧ (CheckAndUpdateSocket env a l).2.1.AllowedEmailAddresses.Perm a.AllowedEmailAddresses)
    ∧ (List.Sorted strLeP (CheckAndUpdateSocket env a l).2.1.AllowedEmailDomains
      ∧ (CheckAndUpdateSocket env a l).2.1.AllowedEmailDomains.Perm a.AllowedEmailDomains)
    ∧ (List.Sorted strLeP (CheckAndUpdateSocket env a l).2.1.PolicyNames
      ∧ (CheckAndUpdateSocket env a l).2.1.PolicyNames.Perm a.PolicyNames)
    ∧ (List.Sorted strLeP (CheckAndUpdateSocket env a l).2.2.1.AllowedEmailAddresses
      ∧ (CheckAndUpdateSocket env a l).2.2.1.AllowedEmailAddresses.Perm l.AllowedEmailAddresses)
    ∧ (List.Sorted strLeP (CheckAndUpdateSocket env a l).2.2.1.AllowedEmailDomains
      ∧ (CheckAndUpdateSocket env a l).2.2.1.AllowedEmailDomains.Perm l.AllowedEmailDomains)
    ∧ (List.Sorted strLeP (CheckAndUpdateSocket env a l).2.2.1.PolicyNames
      ∧ (CheckAndUpdateSocket env a l).2.2.1.PolicyNames.Perm l.PolicyNames) := by
  have hfst : (compareWithPolicies a l).1 = true := h.1
  have hem := compareWithPolicies_emails a l
  have hdo := (compareWithPolicies_domains a l).2.2 hfst
  have hpo := (compareWithPolicies_policies a l).2.2 hfst
  unfold CheckAndUpdateSocket
  dsimp only
  rw [if_pos h]
  refine ⟨⟨stringSlicesEqual_snd x y, stringSlicesEqual_trd x y⟩, rfl, ?_, ?_, ?_, ?_, ?_, ?_⟩
  · show List.Sorted strLeP (compareWithPolicies a l).2.1.AllowedEmailAddresses
      ∧ ((compareWithPolicies a l).2.1.AllowedEmailAddresses).Perm a.AllowedEmailAddresses
    rw [hem.1]
    exact ⟨sortStrings_sorted _, sortStrings_perm _⟩
  · show List.Sorted strLeP (compareWithPolicies a l).2.1.AllowedEmailDomains
      ∧ ((compareWithPolicies a l).2.1.AllowedEmailDomains).Perm a.AllowedEmailDomains
    rw [hdo.1]
    exact ⟨sortStrings_sorted _, sortStrings_perm _⟩
  · show List.Sorted strLeP (compareWithPolicies a l).2.1.PolicyNames
      ∧ ((compareWithPolicies a l).2.1.PolicyNames).Perm a.PolicyNames
    rw [hpo.1]
    exact ⟨sortStrings_sorted _, sortStrings_perm _⟩
  · show List.Sorted strLeP (compareWithPolicies a l).2.2.AllowedEmailAddresses
      ∧ ((compareWithPolicies a l).2.2.AllowedEmailAddresses).Perm l.AllowedEmailAddresses
    rw [hem.2]
    exact ⟨sortStrings_sorted _, sortStrings_perm _⟩
  · show List.Sorted strLeP (compareWithPolicies a l).2.2.AllowedEmailDomains
      ∧ ((compareWithPolicies a l).2.2.AllowedEmailDomains).Perm l.AllowedEmailDomains
    rw [hdo.2]
    exact ⟨sortStrings_sorted _, sortStrings_perm _⟩
  · show List.Sorted strLeP (compareWithPolicies a l).2.2.PolicyNames
      ∧ ((compareWithPolicies a l).2.2.PolicyNames).Perm l.PolicyNames
    rw [hpo.2]
    exact ⟨sortStrings_sorted _, sortStrings_perm _⟩

/-- C10 witness: a concrete non-divergent pair whose unsorted email slices
come out sorted with an empty trace. -/
theorem C10_comparison_sorts_witness :
    (CheckAndUpdateSocket envStub { AllowedEmailAddresses := ["b", "a"] }
        { AllowedEmailAddresses := ["a", "b"] }).2.2.2 = []
    ∧ List.Sorted strLeP
        (CheckAndUpdateSocket envStub { AllowedEmailAddresses := ["b", "a"] }
          { AllowedEmailAddresses := ["a", "b"] }).2.1.AllowedEmailAddresses :=
  ⟨(C10_comparison_sorts_slices_in_place [] [] envStub
      { AllowedEmailAddresses := ["b", "a"] } { AllowedEmailAddresses := ["a", "b"] }
      (by decide)).2.1,
   (C10_comparison_sorts_slices_in_place [] [] envStub
      { AllowedEmailAddresses := ["b", "a"] } { AllowedEmailAddresses := ["a", "b"] }
      (by decide)).2.2.1.1⟩

/-- C5: when any tracked field diverges, `CheckAndUpdateSocket` issues
exactly one policy application and one PUT to the api socket's own
socket_id, whose body carries the local values (emails and policy names up
to the in-place sorting), resets upstream_type to the empty string and
forces cloud_auth_enabled; it issues no create and no delete. -/
theorem C5_field_update_without_recreate (env : Env) (a l : Socket)
    (h : ¬ socketsAgree a l) :
    ∃ ev1 body,
      (CheckAndUpdateSocket env a l).2.2.2 = [ev1, Event.updateEv body.SocketID body]
      ∧ (∀ s, ev1 ≠ Event.createEv s)
      ∧ (∀ i, ev1 ≠ Event.deleteEv i)
      ∧ body.SocketID = a.SocketID
      ∧ body.UpstreamType = ""
      ∧ body.CloudAuthEnabled = true
      ∧ body.AllowedEmailAddresses.Perm l.AllowedEmailAddresses
      ∧ body.AllowedEmailDomains.Perm l.AllowedEmailDomains
      ∧ body.UpstreamHttpHostname = l.UpstreamHttpHostname
      ∧ body.UpstreamUsername = l.UpstreamUsername
      ∧ body.ConnectorAuthenticationEnabled = l.ConnectorAuthenticationEnabled
      ∧ body.PolicyNames.Perm l.PolicyNames
      ∧ body.Tags = l.Tags := by
  have hfr := compareWithPolicies_frame a l
  have hem := compareWithPolicies_emails a l
  have hdo := compareWithPolicies_domains a l
  have hpo := compareWithPolicies_policies a l
  have haea : ((updateBody a l).AllowedEmailAddresses).Perm l.AllowedEmailAddresses := by
    show ((compareWithPolicies a l).2.2.AllowedEmailAddresses).Perm l.AllowedEmailAddresses
    rw [hem.2]
    exact sortStrings_perm _
  have hprops : (updateBody a l).SocketID = a.SocketID
      ∧ (updateBody a l).UpstreamType = ""
      ∧ (updateBody a l).CloudAuthEnabled = true
      ∧ ((updateBody a l).AllowedEmailAddresses).Perm l.AllowedEmailAddresses
      ∧ ((updateBody a l).AllowedEmailDomains).Perm l.AllowedEmailDomains
      ∧ (updateBody a l).UpstreamHttpHostname = l.UpstreamHttpHostname
      ∧ (updateBody a l).UpstreamUsername = l.UpstreamUsername
      ∧ (updateBody a l).ConnectorAuthenticationEnabled = l.ConnectorAuthenticationEnabled
      ∧ ((updateBody a l).PolicyNames).Perm l.PolicyNames
      ∧ (updateBody a l).Tags = l.Tags :=
    ⟨hfr.1.1, rfl, rfl, haea, hdo.2.1, hfr.2.2.1, hfr.2.2.2.1, hfr.2.2.2.2.2.1,
     hpo.2.1, hfr.2.2.2.2.2.2⟩
  have hne1 : ∀ s, Event.applyPoliciesEv (updatedApiSocketPrePolicies a l)
      (compareWithPolicies a l).2.2.PolicyNames ≠ Event.createEv s := by
    intro s hc
    cases hc
  have hne2 : ∀ i, Event.applyPoliciesEv (updatedApiSocketPrePolicies a l)
      (compareWithPolicies a l).2.2.PolicyNames ≠ Event.deleteEv i := by
    intro i hc
    cases hc
  unfold CheckAndUpdateSocket
  dsimp only
  rw [if_neg h]
  split
  all_goals exact ⟨Event.applyPoliciesEv (updatedApiSocketPrePolicies a l)
      (compareWithPolicies a l).2.2.PolicyNames, updateBody a l, rfl, hne1, hne2,
    hprops.1, hprops.2.1, hprops.2.2.1, hprops.2.2.2.1, hprops.2.2.2.2.1,
    hprops.2.2.2.2.2.1, hprops.2.2.2.2.2.2.1, hprops.2.2.2.2.2.2.2.1,
    hprops.2.2.2.2.2.2.2.2.1, hprops.2.2.2.2.2.2.2.2.2⟩

/-- C5 witness: a concrete pair differing only in upstream_http_hostname. -/
theorem C5_field_update_witness :
    ∃ ev1 body,
      (CheckAndUpdateSocket envStub { UpstreamHttpHostname := "x" } {}).2.2.2
        = [ev1, Event.updateEv body.SocketID body]
      ∧ (∀ s, ev1 ≠ Event.createEv s)
      ∧ (∀ i, ev1 ≠ Event.deleteEv i)
      ∧ body.SocketID = ({ UpstreamHttpHostname := "x" } : Socket).SocketID
      ∧ body.UpstreamType = ""
      ∧ body.CloudAuthEnabled = true
      ∧ body.AllowedEmailAddresses.Perm ({} : Socket).AllowedEmailAddresses
      ∧ body.AllowedEmailDomains.Perm ({} : Socket).AllowedEmailDomains
      ∧ body.UpstreamHttpHostname = ({} : Socket).UpstreamHttpHostname
      ∧ body.UpstreamUsername = ({} : Socket).UpstreamUsername
      ∧ body.ConnectorAuthenticationEnabled = ({} : Socket).ConnectorAuthenticationEnabled
      ∧ body.PolicyNames.Perm ({} : Socket).PolicyNames
      ∧ body.Tags = ({} : Socket).Tags :=
  C5_field_update_without_recreate envStub { UpstreamHttpHostname := "x" } {} (by decide)

/-! ## Frame and temporal properties of one tick -/

/-- Model of `ConnectorData.Connector` of a socket's rebuilt ConnectorData (empty for
a missing ConnectorData). -/
def cdConnector (s : Socket) : String :=
  match s.ConnectorData with
  | some cd => cd.Connector
  | none => ""

/-- Model of `ConnectorData.PluginName` of a socket's rebuilt ConnectorData. -/
def cdPlugin (s : Socket) : String :=
  match s.ConnectorData with
  | some cd => cd.PluginName
  | none => ""

/-- Agreement of one control-plane socket with the discovered map: its key
resolves to a local socket carrying the identical ConnectorData, or the
socket is not owned by this connector (different connector or plugin). -/
def agreeAt (m : SMap) (env : Env) (a : Socket) : Prop :=
  match m (socketKey a) with
  | some s => s.ConnectorData = a.ConnectorData
  | none => ¬(cdConnector a = env.connectorName ∧ cdPlugin a = env.pluginName)

instance agreeAtDecidable (m : SMap) (env : Env) (a : Socket) : Decidable (agreeAt m env a) := by
  unfold agreeAt
  cases m (socketKey a)
  · dsimp only
    infer_instance
  · dsimp only
    infer_instance

theorem CheckAndUpdateSocket_no_create_delete (env : Env) (a l : Socket) (ev : Event)
    (hev : ev ∈ (CheckAndUpdateSocket env a l).2.2.2) :
    (∀ s, ev ≠ Event.createEv s) ∧ (∀ i, ev ≠ Event.deleteEv i) := by
  unfold CheckAndUpdateSocket at hev
  dsimp only at hev
  by_cases hagree : socketsAgree a l
  · rw [if_pos hagree] at hev
    simp at hev
  · rw [if_neg hagree] at hev
    split at hev
    all_goals simp only [List.mem_cons, List.not_mem_nil, or_false] at hev
    all_goals rcases hev with rfl | rfl
    all_goals constructor
    all_goals intro z hc
    all_goals cases hc

theorem CheckSocketsToDelete_noop (env : Env) (apiSockets : List Socket) (m : SMap)
    (h : ∀ a ∈ apiSockets, socketKey a ≠ "" → agreeAt m env a) :
    CheckSocketsToDelete env apiSockets m = (.ok m, []) := by
  induction apiSockets with
  | nil => rfl
  | cons a rest ih =>
    have hrest : ∀ x ∈ rest, socketKey x ≠ "" → agreeAt m env x :=
      fun x hx => h x (List.mem_cons_of_mem a hx)
    have ha := h a (List.mem_cons_self a rest)
    unfold CheckSocketsToDelete
    cases hcd : a.ConnectorData with
    | none => exact ih hrest
    | some cd =>
      dsimp only
      by_cases hkey : cd.Key = ""
      · rw [if_pos hkey]
        exact ih hrest
      · rw [if_neg hkey]
        have hkeya : socketKey a = cd.Key := by
          unfold socketKey
          rw [hcd]
        have hagree := ha (by rw [hkeya]; exact hkey)
        unfold agreeAt at hagree
        rw [hkeya] at hagree
        cases hm : m cd.Key with
        | some s =>
          dsimp only
          rw [hm] at hagree
          dsimp only at hagree
          rw [if_pos (by rw [hagree, hcd])]
          exact ih hrest
        | none =>
          dsimp only
          rw [hm] at hagree
          dsimp only at hagree
          unfold cdConnector cdPlugin at hagree
          rw [hcd] at hagree
          dsimp only at hagree
          rw [if_neg hagree]
          exact ih hrest

theorem CheckSocketsToCreate_no_create_delete (env : Env) (ls : List Socket) (m : SMap)
    (hm : ∀ x ∈ ls, m (socketKey x) ≠ none) (ev : Event)
    (hev : ev ∈ (CheckSocketsToCreate env ls m).2) :
    (∀ s, ev ≠ Event.createEv s) ∧ (∀ i, ev ≠ Event.deleteEv i) := by
  induction ls with
  | nil =>
    simp only [CheckSocketsToCreate, List.not_mem_nil] at hev
  | cons x rest ih =>
    have hx := hm x (List.mem_cons_self x rest)
    have hrest : ∀ y ∈ rest, m (socketKey y) ≠ none :=
      fun y hy => hm y (List.mem_cons_of_mem x hy)
    unfold CheckSocketsToCreate at hev
    cases hmx : m (socketKey x) with
    | none => exact absurd hmx hx
    | some apiSocket =>
      rw [hmx] at hev
      dsimp only at hev
      split at hev
      · next e f1 f2 evs heq =>
        have hev2 : ev ∈ (CheckAndUpdateSocket env apiSocket x).2.2.2 := by
          rw [heq]
          exact hev
        exact CheckAndUpdateSocket_no_create_delete env apiSocket x ev hev2
      · next u f1 f2 evs heq =>
        split at hev
        · next e2 evs2 heq2 =>
          rcases List.mem_append.mp hev with hl | hr
          · have hev2 : ev ∈ (CheckAndUpdateSocket env apiSocket x).2.2.2 := by
              rw [heq]
              exact hl
            exact CheckAndUpdateSocket_no_create_delete env apiSocket x ev hev2
          · have hev2 : ev ∈ (CheckSocketsToCreate env rest m).2 := by
              rw [heq2]
              exact hr
            exact ih hrest hev2
        · next tail evs2 heq2 =>
          rcases List.mem_append.mp hev with hl | hr
          · have hev2 : ev ∈ (CheckAndUpdateSocket env apiSocket x).2.2.2 := by
              rw [heq]
              exact hl
            exact CheckAndUpdateSocket_no_create_delete env apiSocket x ev hev2
          · have hev2 : ev ∈ (CheckSocketsToCreate env rest m).2 := by
              rw [heq2]
              exact hr
            exact ih hrest hev2

/-- Is the event a control-plane create request? -/
def Event.isCreate : Event → Bool
  | Event.createEv _ => true
  | _ => false

/-- Is the event a control-plane delete request? -/
def Event.isDelete : Event → Bool
  | Event.deleteEv _ => true
  | _ => false

/-- C4: if the discovered set and the control-plane set agree key-for-key on
every ConnectorData struct — every keyed control-plane socket resolves,
through the local map, to a local socket with the identical ConnectorData
(or is foreign to this connector), and every local socket has a server
match — then the tick issues no create and no delete to the control
plane. -/
theorem C4_identity_stability (env : Env) (discovered apiList : List Socket)
    (H12 : ∀ a ∈ apiList.map bootstrapApiSocket, socketKey a ≠ "" →
      agreeAt (buildLocalMap env discovered) env a)
    (H3 : ∀ x ∈ discovered.map (bootstrapLocalSocket env),
      buildApiMap apiList (socketKey x) ≠ none) :
    ((SocketsCoreHandler env discovered apiList).2.all
      fun ev => !ev.isCreate && !ev.isDelete) = true := by
  rw [List.all_eq_true]
  intro ev hev
  have hnd : (∀ s, ev ≠ Event.createEv s) ∧ (∀ i, ev ≠ Event.deleteEv i) := by
    unfold SocketsCoreHandler at hev
    dsimp only at hev
    rw [CheckSocketsToDelete_noop env (apiList.map bootstrapApiSocket)
      (buildLocalMap env discovered) H12] at hev
    dsimp only at hev
    split at hev
    · next e evs2 heq2 =>
      rw [List.nil_append] at hev
      have hev2 : ev ∈ (CheckSocketsToCreate env (discovered.map (bootstrapLocalSocket env))
          (buildApiMap apiList)).2 := by
        rw [heq2]
        exact hev
      exact CheckSocketsToCreate_no_create_delete env _ _ H3 ev hev2
    · next stc evs2 heq2 =>
      rw [List.nil_append] at hev
      have hev2 : ev ∈ (CheckSocketsToCreate env (discovered.map (bootstrapLocalSocket env))
          (buildApiMap apiList)).2 := by
        rw [heq2]
        exact hev
      exact CheckSocketsToCreate_no_create_delete env _ _ H3 ev hev2
  cases ev with
  | createEv s => exact absurd rfl (hnd.1 s)
  | updateEv i b => rfl
  | deleteEv i => exact absurd rfl (hnd.2 i)
  | applyPoliciesEv s ns => rfl
  | disconnectEv k s => rfl
  | connectEv k s => rfl

/-- A raw discovered socket used by witnesses. -/
def witnessLocalSocket : Socket := { Name := "db", TargetHostname := "h" }

/-- Its control-plane copy, carrying the tags the bootstrap of
`witnessLocalSocket` under `envStub` would produce. -/
def witnessApiSocket : Socket :=
  { SocketID := "sid-1",
    Tags := (ConnectorData.mk "db" "c1" "" 0 "h" "" "" "" "static" "user:u1").Tags }

/-- C4 witness: a tick over one matching pair issues no create and no
delete. -/
theorem C4_identity_stability_witness :
    ((SocketsCoreHandler envStub [witnessLocalSocket] [witnessApiSocket]).2.all
      fun ev => !ev.isCreate && !ev.isDelete) = true :=
  C4_identity_stability envStub [witnessLocalSocket] [witnessApiSocket]
    (by decide) (by decide)

/-- Every control-plane call of `env` succeeds. -/
def EnvOk (env : Env) : Prop :=
  (∀ s, ∃ t, env.createSocket s = .ok t)
  ∧ (∀ i, env.deleteSocket i = .ok ())
  ∧ (∀ i s, env.updateSocket i s = .ok ())

theorem envStub_ok : EnvOk envStub :=
  ⟨fun _ => ⟨_, rfl⟩, fun _ => rfl, fun _ _ => rfl⟩

theorem CreateSocketAndTunnel_ok (env : Env) (hok : EnvOk env) (s : Socket) :
    ∃ t ev2, CreateSocketAndTunnel env s
      = (.ok t, [Event.createEv (createBody env s), ev2]) := by
  obtain ⟨t, ht⟩ := hok.1 (createBody env s)
  unfold CreateSocketAndTunnel
  dsimp only
  rw [ht]
  exact ⟨_, _, rfl⟩

theorem RecreateSocket_ok (env : Env) (hok : EnvOk env) (i : String) (s : Socket) :
    ∃ t ev2, RecreateSocket env i s
      = (.ok t, [Event.deleteEv i, Event.createEv (createBody env s), ev2]) := by
  obtain ⟨t, ev2, hct⟩ := CreateSocketAndTunnel_ok env hok s
  unfold RecreateSocket
  rw [hok.2.1 i]
  dsimp only
  rw [hct]
  exact ⟨_, _, rfl⟩

theorem CheckAndUpdateSocket_ok (env : Env) (hok : EnvOk env) (a l : Socket) :
    ∃ t r2 r3 evs, CheckAndUpdateSocket env a l = (.ok t, r2, r3, evs) := by
  unfold CheckAndUpdateSocket
  dsimp only
  by_cases hagree : socketsAgree a l
  · rw [if_pos hagree]
    exact ⟨_, _, _, _, rfl⟩
  · rw [if_neg hagree]
    rw [hok.2.2 (updateBody a l).SocketID (updateBody a l)]
    exact ⟨_, _, _, _, rfl⟩

theorem CheckSocketsToDelete_ok (env : Env) (hok : EnvOk env) :
    ∀ (apiSockets : List Socket) (m : SMap),
    ∃ m2 evs, CheckSocketsToDelete env apiSockets m = (.ok m2, evs)
      ∧ ∀ k, m k = none → m2 k = none := by
  intro apiSockets
  induction apiSockets with
  | nil => exact fun m => ⟨m, [], rfl, fun k hk => hk⟩
  | cons a rest ih =>
    intro m
    unfold CheckSocketsToDelete
    cases hcd : a.ConnectorData with
    | none => exact ih m
    | some cd =>
      dsimp only
      by_cases hkey : cd.Key = ""
      · rw [if_pos hkey]
        exact ih m
      · rw [if_neg hkey]
        cases hm : m cd.Key with
        | some s =>
          dsimp only
          by_cases hsame : s.ConnectorData = some cd
          · rw [if_pos hsame]
            exact ih m
          · rw [if_neg hsame]
            obtain ⟨t, ev2, hrs⟩ := RecreateSocket_ok env hok a.SocketID s
            rw [hrs]
            dsimp only
            obtain ⟨m2, evs2, hrec, hpres⟩ := ih (mapUpdate m cd.Key t)
            rw [hrec]
            refine ⟨m2, _, rfl, ?_⟩
            intro k hk
            apply hpres
            unfold mapUpdate
            rw [if_neg ?hkk]
            case hkk =>
              intro hkk
              rw [hkk, hm] at hk
              cases hk
            exact hk
        | none =>
          dsimp only
          by_cases hown : cd.Connector = env.connectorName ∧ cd.PluginName = env.pluginName
          · rw [if_pos hown, hok.2.1 a.SocketID]
            dsimp only
            obtain ⟨m2, evs2, hrec, hpres⟩ := ih m
            rw [hrec]
            exact ⟨m2, _, rfl, hpres⟩
          · rw [if_neg hown]
            exact ih m

theorem CheckSocketsToDelete_deletes (env : Env) (hok : EnvOk env) :
    ∀ (apiSockets : List Socket) (m : SMap) (a : Socket) (cd : ConnectorData),
    a ∈ apiSockets → a.ConnectorData = some cd → cd.Key ≠ "" → m cd.Key = none →
    cd.Connector = env.connectorName → cd.PluginName = env.pluginName →
    Event.deleteEv a.SocketID ∈ (CheckSocketsToDelete env apiSockets m).2 := by
  intro apiSockets
  induction apiSockets with
  | nil =>
    intro m a cd ha
    cases ha
  | cons x rest ih =>
    intro m a cd ha hcd hkey hm hconn hplug
    rcases List.mem_cons.mp ha with rfl | ha2
    · unfold CheckSocketsToDelete
      rw [hcd]
      dsimp only
      rw [if_neg hkey, hm]
      dsimp only
      rw [if_pos ⟨hconn, hplug⟩, hok.2.1 a.SocketID]
      dsimp only
      exact List.mem_cons_of_mem _ (List.mem_cons_self _ _)
    · unfold CheckSocketsToDelete
      cases hxcd : x.ConnectorData with
      | none => exact ih m a cd ha2 hcd hkey hm hconn hplug
      | some xcd =>
        dsimp only
        by_cases hxkey : xcd.Key = ""
        · rw [if_pos hxkey]
          exact ih m a cd ha2 hcd hkey hm hconn hplug
        · rw [if_neg hxkey]
          cases hxm : m xcd.Key with
          | some s =>
            dsimp only
            by_cases hsame : s.ConnectorData = some xcd
            · rw [if_pos hsame]
              exact ih m a cd ha2 hcd hkey hm hconn hplug
            · rw [if_neg hsame]
              obtain ⟨t, ev2, hrs⟩ := RecreateSocket_ok env hok x.SocketID s
              rw [hrs]
              dsimp only
              refine List.mem_append.mpr (Or.inr ?_)
              apply ih (mapUpdate m xcd.Key t) a cd ha2 hcd hkey ?_ hconn hplug
              unfold mapUpdate
              rw [if_neg ?hkk]
              case hkk =>
                intro hkk
                rw [hkk, hxm] at hm
                cases hm
              exact hm
          | none =>
            dsimp only
            by_cases hxown : xcd.Connector = env.connectorName ∧ xcd.PluginName = env.pluginName
            · rw [if_pos hxown, hok.2.1 x.SocketID]
              dsimp only
              exact List.mem_cons_of_mem _ (List.mem_cons_of_mem _
                (ih m a cd ha2 hcd hkey hm hconn hplug))
            · rw [if_neg hxown]
              exact ih m a cd ha2 hcd hkey hm hconn hplug

theorem CheckSocketsToCreate_creates (env : Env) (hok : EnvOk env) :
    ∀ (ls : List Socket) (m : SMap) (x : Socket),
    x ∈ ls → m (socketKey x) = none →
    Event.createEv (createBody env x) ∈ (CheckSocketsToCreate env ls m).2 := by
  intro ls
  induction ls with
  | nil =>
    intro m x hx
    cases hx
  | cons y rest ih =>
    intro m x hx hm
    rcases List.mem_cons.mp hx with rfl | hx2
    · unfold CheckSocketsToCreate
      rw [hm]
      dsimp only
      obtain ⟨t, ev2, hct⟩ := CreateSocketAndTunnel_ok env hok x
      rw [hct]
      dsimp only
      split
      · exact List.mem_append.mpr (Or.inl (List.mem_cons_self _ _))
      · exact List.mem_append.mpr (Or.inl (List.mem_cons_self _ _))
    · unfold CheckSocketsToCreate
      cases hmy : m (socketKey y) with
      | none =>
        dsimp only
        obtain ⟨t, ev2, hct⟩ := CreateSocketAndTunnel_ok env hok y
        rw [hct]
        dsimp only
        split
        · next e evs2 heq =>
          refine List.mem_append.mpr (Or.inr ?_)
          have hmem := ih m x hx2 hm
          rw [heq] at hmem
          exact hmem
        · next tail evs2 heq =>
          refine List.mem_append.mpr (Or.inr ?_)
          have hmem := ih m x hx2 hm
          rw [heq] at hmem
          exact hmem
      | some apiS =>
        dsimp only
        obtain ⟨t, r2, r3, evs, hcu⟩ := CheckAndUpdateSocket_ok env hok apiS y
        rw [hcu]
        dsimp only
        split
        · next e evs2 heq =>
          refine List.mem_append.mpr (Or.inr ?_)
          have hmem := ih m x hx2 hm
          rw [heq] at hmem
          exact hmem
        · next tail evs2 heq =>
          refine List.mem_append.mpr (Or.inr ?_)
          have hmem := ih m x hx2 hm
          rw [heq] at hmem
          exact hmem

/-- C3: when a discovered socket's ConnectorData identity key changed
relative to its server copy — so the server copy's key has no local match
while it is still owned by this connector, and the local replacement's key
has no server match — a successful tick issues the DELETE of the old socket
strictly before the POST of its replacement (the delete pass runs before the
create pass); and `RecreateSocket` itself always issues its DELETE
immediately followed by its POST. -/
theorem C3_recreate_delete_before_create (env : Env) (hok : EnvOk env)
    (discovered apiList : List Socket) (a x : Socket) (cd : ConnectorData)
    (ha : a ∈ apiList.map bootstrapApiSocket)
    (hcd : a.ConnectorData = some cd)
    (hk : cd.Key ≠ "")
    (hconn : cd.Connector = env.connectorName)
    (hplug : cd.PluginName = env.pluginName)
    (hm : buildLocalMap env discovered cd.Key = none)
    (hx : x ∈ discovered.map (bootstrapLocalSocket env))
    (hxm : buildApiMap apiList (socketKey x) = none) :
    (∃ t1 t2 t3, (SocketsCoreHandler env discovered apiList).2
        = t1 ++ Event.deleteEv a.SocketID :: (t2 ++ Event.createEv (createBody env x) :: t3))
    ∧ (∀ i s, (RecreateSocket env i s).2.take 2
        = [Event.deleteEv i, Event.createEv (createBody env s)]) := by
  constructor
  · have hdelmem := CheckSocketsToDelete_deletes env hok (apiList.map bootstrapApiSocket)
      (buildLocalMap env discovered) a cd ha hcd hk hm hconn hplug
    have hcremem := CheckSocketsToCreate_creates env hok
      (discovered.map (bootstrapLocalSocket env)) (buildApiMap apiList) x hx hxm
    obtain ⟨m2, evsD, hda, -⟩ := CheckSocketsToDelete_ok env hok
      (apiList.map bootstrapApiSocket) (buildLocalMap env discovered)
    have hdm : Event.deleteEv a.SocketID ∈ evsD := by
      rw [hda] at hdelmem
      exact hdelmem
    obtain ⟨p, q, hpq⟩ := List.append_of_mem hdm
    unfold SocketsCoreHandler
    dsimp only
    rw [hda]
    dsimp only
    split
    · next e evs2 heq =>
      have hcm : Event.createEv (createBody env x) ∈ evs2 := by
        rw [heq] at hcremem
        exact hcremem
      obtain ⟨u, v, huv⟩ := List.append_of_mem hcm
      refine ⟨p, q ++ u, v, ?_⟩
      rw [hpq, huv]
      simp [List.append_assoc]
    · next tail evs2 heq =>
      have hcm : Event.createEv (createBody env x) ∈ evs2 := by
        rw [heq] at hcremem
        exact hcremem
      obtain ⟨u, v, huv⟩ := List.append_of_mem hcm
      refine ⟨p, q ++ u, v, ?_⟩
      rw [hpq, huv]
      simp [List.append_assoc]
  · intro i s
    obtain ⟨t, ev2, hrs⟩ := RecreateSocket_ok env hok i s
    rw [hrs]
    rfl

/-- The server copy whose identity key no longer matches any discovered
socket (used by the C3 witness). -/
def recreateApiSocket : Socket :=
  { SocketID := "sid-old",
    Tags := (ConnectorData.mk "old" "c1" "" 0 "h" "" "" "" "static" "user:u1").Tags }

/-- The discovered replacement whose key differs from the server copy's. -/
def recreateLocalSocket : Socket := { Name := "new", TargetHostname := "h" }

/-- C3 witness: with one renamed socket, the tick's trace contains the
DELETE of the old socket id strictly before the POST of the replacement. -/
theorem C3_recreate_witness :
    ∃ t1 t2 t3, (SocketsCoreHandler envStub [recreateLocalSocket] [recreateApiSocket]).2
      = t1 ++ Event.deleteEv (bootstrapApiSocket recreateApiSocket).SocketID
          :: (t2 ++ Event.createEv
                (createBody envStub (bootstrapLocalSocket envStub recreateLocalSocket)) :: t3) :=
  (C3_recreate_delete_before_create envStub envStub_ok [recreateLocalSocket]
    [recreateApiSocket] (bootstrapApiSocket recreateApiSocket)
    (bootstrapLocalSocket envStub recreateLocalSocket)
    (ConnectorData.mk "old" "c1" "" 0 "h" "" "" "" "static" "user:u1")
    (List.mem_singleton.mpr rfl) (by decide) (by decide) (by decide) (by decide)
    (by decide) (List.mem_singleton.mpr rfl) (by decide)).1

/-! ## Tunnel registry and tunnel lifecycle (core.go)

The registry type `SyncMap` and `ssh.Connection` are declared outside the
provided sources.  Modelled from the spec: §4.D specifies the registry as a
process-wide mapping socket_id → tunnel handle with add/get/delete/len
where `is_connected(id)` is false when the handle reports a closed state;
a session handle is therefore modelled by its closed flag alone, and
`Close()` sets it. -/

/-- Modelled from the spec: a tunnel session handle (`ssh.Connection`);
`closed` is what `IsClosed` reports and what `Close()` sets. -/
structure Session where
  closed : Bool := false
  deriving DecidableEq

/-- Modelled from the spec: the registry, a mapping socket_id → handle. -/
abbrev Registry := List (String × Session)

/-- Model of `SyncMap.Get`. -/
def regGet (r : Registry) (k : String) : Option Session :=
  match r.find? (fun p => p.1 == k) with
  | some p => some p.2
  | none => none

/-- Model of `SyncMap.Add` (map assignment: replaces any entry under the key). -/
def regAdd (r : Registry) (k : String) (v : Session) : Registry :=
  (k, v) :: r.filter (fun p => !(p.1 == k))

/-- Model of `SyncMap.Delete`. -/
def regDelete (r : Registry) (k : String) : Registry :=
  r.filter (fun p => !(p.1 == k))

/-- Close the session stored under `k` (the handle is mutated in place; the
entry stays in the registry). -/
def regClose (r : Registry) (k : String) : Registry :=
  r.map (fun p => if p.1 == k then (p.1, { p.2 with closed := true }) else p)

/-- Model of `ConnectorCore.IsSocketConnected`: present and not closed. -/
def IsSocketConnected (r : Registry) (key : String) : Bool :=
  match regGet r key with
  | some s => !s.closed
  | none => false

/-- The disconnect branch of `TunnelConnectJob`: look the key up and close
the session when present; the entry itself is never deleted. -/
def processDisconnect (r : Registry) (key : String) : Registry :=
  match regGet r key with
  | some _ => regClose r key
  | none => r

/-- Process a tick's events against the registry the way
`TunnelConnectJob`'s dispatcher handles "disconnect" actions (connect
actions spawn `TunnelConnnect` and do not themselves mutate the
registry). -/
def processEvents (r : Registry) (evs : List Event) : Registry :=
  evs.foldl (fun acc ev =>
    match ev with
    | Event.disconnectEv k _ => processDisconnect acc k
    | _ => acc) r

/-- The control-plane socket of the C7 failing input: owned by this
connector, present in the registry under its socket id, absent locally. -/
def c7ApiSocket : Socket :=
  { SocketID := "sid-1",
    Tags := (ConnectorData.mk "db" "c1" "" 0 "h" "" "" "" "static" "user:u1").Tags }

/-- C7, evaluated at the failing input: the tick over an owned server socket
with no local match emits the disconnect (keyed by the ConnectorData key
`db;c1;static`) before the control-plane DELETE of `sid-1`; but the
registry is keyed by socket_id, so processing the disconnect leaves the
registry unchanged — the entry for `sid-1` is still present, and not even
closed, after the tick. -/
theorem C7_disconnect_key_mismatch :
    (SocketsCoreHandler envStub [] [c7ApiSocket]).2
      = [Event.disconnectEv "db;c1;static" (bootstrapApiSocket c7ApiSocket),
         Event.deleteEv "sid-1"]
    ∧ processEvents [("sid-1", {})] (SocketsCoreHandler envStub [] [c7ApiSocket]).2
        = [("sid-1", {})]
    ∧ regGet (processEvents [("sid-1", {})] (SocketsCoreHandler envStub [] [c7ApiSocket]).2)
        "sid-1" = some { closed := false } := by
  refine ⟨?_, ?_, ?_⟩ <;> decide

/-- The registry mutations the program performs: the add at the top of
`TunnelConnnect`, the delete on its connect-error path, and the close done
by the disconnect handler. -/
inductive RegAction
  | add (key : String) (s : Session)
  | del (key : String)
  | close (key : String)
  deriving DecidableEq

/-- Apply one registry mutation. -/
def applyRegAction (r : Registry) : RegAction → Registry
  | RegAction.add k s => regAdd r k s
  | RegAction.del k => regDelete r k
  | RegAction.close k => regClose r k

/-- Apply a sequence of registry mutations in order. -/
def applyRegActions (r : Registry) (acts : List RegAction) : Registry :=
  acts.foldl applyRegAction r

/-- The socket ids present in the registry. -/
def regKeys (r : Registry) : List String := r.map Prod.fst

theorem regKeys_add_nodup (r : Registry) (k : String) (s : Session)
    (h : (regKeys r).Nodup) : (regKeys (regAdd r k s)).Nodup := by
  unfold regAdd regKeys
  rw [List.map_cons, List.nodup_cons]
  constructor
  · intro hmem
    rw [List.mem_map] at hmem
    obtain ⟨p, hp, hpk⟩ := hmem
    rw [List.mem_filter] at hp
    have h2 := hp.2
    simp [hpk] at h2
  · exact (List.Sublist.map Prod.fst (List.filter_sublist r)).nodup h

theorem regKeys_del_nodup (r : Registry) (k : String)
    (h : (regKeys r).Nodup) : (regKeys (regDelete r k)).Nodup :=
  (List.Sublist.map Prod.fst (List.filter_sublist r)).nodup h

theorem regKeys_close (r : Registry) (k : String) : regKeys (regClose r k) = regKeys r := by
  unfold regClose regKeys
  rw [List.map_map]
  apply List.map_congr_left
  intro p _
  dsimp only [Function.comp]
  split <;> rfl

theorem applyRegActions_nodup (acts : List RegAction) :
    ∀ r : Registry, (regKeys r).Nodup → (regKeys (applyRegActions r acts)).Nodup := by
  induction acts with
  | nil => exact fun r h => h
  | cons act rest ih =>
    intro r h
    apply ih
    cases act with
    | add k s => exact regKeys_add_nodup r k s h
    | del k => exact regKeys_del_nodup r k h
    | close k =>
      show (regKeys (regClose r k)).Nodup
      rw [regKeys_close]
      exact h

/-- The connect-emission loop of `HandleUpdates`: for each socket the core
handler returned, send `connect` exactly when the registry does not report
the socket id connected. -/
def connectEmits (r : Registry) (sockets : List Socket) : List Event :=
  sockets.filterMap fun s =>
    if IsSocketConnected r s.SocketID then none
    else some (Event.connectEv s.SocketID s)

/-- C8: after any sequence of the program's registry operations the
registry keys stay duplicate-free — at most one live tunnel handle per
socket_id — and `HandleUpdates` emits a connect event only for a to-connect
socket whose socket_id the registry reports not connected (absent or
closed). -/
theorem C8_registry_single_owner (reg : Registry) (acts : List RegAction)
    (sockets : List Socket) (ev : Event)
    (hnd : (regKeys reg).Nodup) (hev : ev ∈ connectEmits reg sockets) :
    (regKeys (applyRegActions reg acts)).Nodup
    ∧ ∃ s ∈ sockets, ev = Event.connectEv s.SocketID s
        ∧ IsSocketConnected reg s.SocketID = false := by
  refine ⟨applyRegActions_nodup acts reg hnd, ?_⟩
  unfold connectEmits at hev
  rw [List.mem_filterMap] at hev
  obtain ⟨s, hs, hif⟩ := hev
  by_cases hconn : IsSocketConnected reg s.SocketID
  · rw [if_pos hconn] at hif
    cases hif
  · rw [if_neg hconn] at hif
    refine ⟨s, hs, (Option.some.inj hif).symm, ?_⟩
    simpa using hconn

/-- C8 witness: a double add of the same id keeps a single entry, and the
emission check at a concrete registry. -/
theorem C8_registry_single_owner_witness :
    (regKeys (applyRegActions [] [RegAction.add "sid-1" {}, RegAction.add "sid-1" {},
        RegAction.close "sid-1", RegAction.del "sid-2"])).Nodup
    ∧ ∃ s ∈ [witnessApiSocket],
        Event.connectEv "sid-1" witnessApiSocket = Event.connectEv s.SocketID s
        ∧ IsSocketConnected [] s.SocketID = false :=
  C8_registry_single_owner [] [RegAction.add "sid-1" {}, RegAction.add "sid-1" {},
      RegAction.close "sid-1", RegAction.del "sid-2"]
    [witnessApiSocket] (Event.connectEv "sid-1" witnessApiSocket)
    (by decide) (by decide)

/-- Organization info: the certificates map (spec §4.A). -/
structure OrgInfo where
  Certificates : List (String × String) := []
  deriving DecidableEq

/-- The collaborators `TunnelConnnect` consults, as response values: the
user id parsed from the access token, the organization info, the socket
reload, and the outcome of `ssh.Connection.Connect`. -/
structure TunnelEnv where
  getUserID : Except Unit String
  getOrganizationInfo : Except Unit OrgInfo
  getSocket : String → Except Unit Socket
  sessionConnect : Socket → Except Unit Unit

/-- Outcome of `TunnelConnnect`: normal return, error return, or
`log.Fatalf` (which terminates the process and never returns). -/
inductive TunnelResult
  | ok
  | err
  | fatal
  deriving DecidableEq

/-- Lookup in the organization certificates map. -/
def orgCert (o : OrgInfo) (k : String) : Option String :=
  match o.Certificates.find? (fun p => p.1 == k) with
  | some p => some p.2
  | none => none

/-- Model of `ConnectorCore.TunnelConnnect`: the session is added to the registry
first; the error returns before `Connect` leave the entry in place and only
the `Connect` failure deletes it.  PEM parsing of the organization
certificate is modelled as succeeding; a missing mtls certificate under
connector authentication is the `log.Fatalf` path. -/
def TunnelConnnect (env : TunnelEnv) (reg : Registry) (socket : Socket) :
    TunnelResult × Registry :=
  let reg := regAdd reg socket.SocketID {}
  match env.getUserID with
  | .error _ => (.err, reg)
  | .ok _ =>
  match env.getOrganizationInfo with
  | .error _ => (.err, reg)
  | .ok org =>
  match env.getSocket socket.SocketID with
  | .error _ => (.err, reg)
  | .ok socketFromApi =>
  let socket := socketFromApi.BuildConnectorDataByTags
  if socket.ConnectorAuthenticationEnabled ∧ orgCert org "mtls_certificate" = none
  then (.fatal, reg)
  else
    match env.sessionConnect socket with
    | .error _ => (.err, regDelete reg socket.SocketID)
    | .ok _ => (.ok, reg)

theorem regGet_add_self (r : Registry) (k : String) (v : Session) :
    regGet (regAdd r k v) k = some v := by
  unfold regGet regAdd
  simp [List.find?]

theorem regGet_delete_self (r : Registry) (k : String) :
    regGet (regDelete r k) k = none := by
  unfold regGet regDelete
  cases hf : (r.filter fun p => !(p.1 == k)).find? (fun p => p.1 == k) with
  | none => rfl
  | some p =>
    have hp := List.find?_some hf
    have hmem := List.mem_of_find?_eq_some hf
    rw [List.mem_filter] at hmem
    have h2 := hmem.2
    rw [hp] at h2
    cases h2

theorem buildByTags_SocketID (s : Socket) :
    (Socket.BuildConnectorDataByTags s).SocketID = s.SocketID := by
  unfold Socket.BuildConnectorDataByTags
  split <;> rfl

/-- The environment of the C9 counterexample: parsing the user id from the
access token fails; everything else would succeed. -/
def tunnelEnvEarlyFail : TunnelEnv :=
  { getUserID := .error (), getOrganizationInfo := .ok {},
    getSocket := fun _ => .ok {}, sessionConnect := fun _ => .ok () }

/-- C9 counterexample: when `GetUserIDFromAccessToken` fails,
`TunnelConnnect` returns an error yet the registry still holds the entry it
added on entry — the claim that every error return leaves no registry entry
for the socket is false. -/
theorem C9_early_error_leaks_registry_entry :
    (TunnelConnnect tunnelEnvEarlyFail [] { SocketID := "sid-1" }).1 = TunnelResult.err
    ∧ regGet (TunnelConnnect tunnelEnvEarlyFail [] { SocketID := "sid-1" }).2 "sid-1"
        = some { closed := false } :=
  ⟨rfl, rfl⟩

/-- C9 (amended): only the transport-connect failure releases the registry
entry: when `session.Connect` fails, `TunnelConnnect` returns an error and
the entry for the reloaded socket's id is deleted; failures before the dial
(access-token parse, organization fetch, socket reload) return an error
with the entry added at the top of `TunnelConnnect` still present. -/
theorem C9_registry_release_on_connect_error (env : TunnelEnv) (reg : Registry)
    (socket : Socket) :
    (env.getUserID = .error () →
      (TunnelConnnect env reg socket).1 = TunnelResult.err
      ∧ regGet (TunnelConnnect env reg socket).2 socket.SocketID = some { closed := false })
    ∧ (∀ u, env.getUserID = .ok u → env.getOrganizationInfo = .error () →
      (TunnelConnnect env reg socket).1 = TunnelResult.err
      ∧ regGet (TunnelConnnect env reg socket).2 socket.SocketID = some { closed := false })
    ∧ (∀ u o, env.getUserID = .ok u → env.getOrganizationInfo = .ok o →
      env.getSocket socket.SocketID = .error () →
      (TunnelConnnect env reg socket).1 = TunnelResult.err
      ∧ regGet (TunnelConnnect env reg socket).2 socket.SocketID = some { closed := false })
    ∧ (∀ u o sApi, env.getUserID = .ok u → env.getOrganizationInfo = .ok o →
      env.getSocket socket.SocketID = .ok sApi →
      ¬(sApi.BuildConnectorDataByTags.ConnectorAuthenticationEnabled
          ∧ orgCert o "mtls_certificate" = none) →
      env.sessionConnect sApi.BuildConnectorDataByTags = .error () →
      (TunnelConnnect env reg socket).1 = TunnelResult.err
      ∧ regGet (TunnelConnnect env reg socket).2 sApi.SocketID = none) := by
  refine ⟨?_, ?_, ?_, ?_⟩
  · intro h1
    unfold TunnelConnnect
    dsimp only
    rw [h1]
    exact ⟨rfl, regGet_add_self reg socket.SocketID {}⟩
  · intro u h1 h2
    unfold TunnelConnnect
    dsimp only
    rw [h1, h2]
    exact ⟨rfl, regGet_add_self reg socket.SocketID {}⟩
  · intro u o h1 h2 h3
    unfold TunnelConnnect
    dsimp only
    rw [h1, h2, h3]
    exact ⟨rfl, regGet_add_self reg socket.SocketID {}⟩
  · intro u o sApi h1 h2 h3 hnf h4
    unfold TunnelConnnect
    dsimp only
    rw [h1, h2, h3]
    dsimp only
    rw [if_neg hnf, h4]
    refine ⟨rfl, ?_⟩
    rw [buildByTags_SocketID]
    exact regGet_delete_self _ sApi.SocketID

/-- Environments for the C9 witness: organization fetch fails, socket
reload fails, and transport connect fails. -/
def tunnelEnvOrgFail : TunnelEnv :=
  { getUserID := .ok "u1", getOrganizationInfo := .error (),
    getSocket := fun _ => .ok {}, sessionConnect := fun _ => .ok () }

/-- Socket reload fails. -/
def tunnelEnvSocketFail : TunnelEnv :=
  { getUserID := .ok "u1", getOrganizationInfo := .ok {},
    getSocket := fun _ => .error (), sessionConnect := fun _ => .ok () }

/-- Transport connect fails. -/
def tunnelEnvConnectFail : TunnelEnv :=
  { getUserID := .ok "u1", getOrganizationInfo := .ok {},
    getSocket := fun _ => .ok { SocketID := "sid-1" },
    sessionConnect := fun _ => .error () }

/-- C9 witness: the four failure shapes at concrete inputs — the three
pre-dial failures leave the entry, the connect failure removes it. -/
theorem C9_registry_release_witness :
    ((TunnelConnnect tunnelEnvEarlyFail [] { SocketID := "sid-1" }).1 = TunnelResult.err
      ∧ regGet (TunnelConnnect tunnelEnvEarlyFail [] { SocketID := "sid-1" }).2 "sid-1"
          = some { closed := false })
    ∧ ((TunnelConnnect tunnelEnvOrgFail [] { SocketID := "sid-1" }).1 = TunnelResult.err
      ∧ regGet (TunnelConnnect tunnelEnvOrgFail [] { SocketID := "sid-1" }).2 "sid-1"
          = some { closed := false })
    ∧ ((TunnelConnnect tunnelEnvSocketFail [] { SocketID := "sid-1" }).1 = TunnelResult.err
      ∧ regGet (TunnelConnnect tunnelEnvSocketFail [] { SocketID := "sid-1" }).2 "sid-1"
          = some { closed := false })
    ∧ ((TunnelConnnect tunnelEnvConnectFail [] { SocketID := "sid-1" }).1 = TunnelResult.err
      ∧ regGet (TunnelConnnect tunnelEnvConnectFail [] { SocketID := "sid-1" }).2
          ({ SocketID := "sid-1" } : Socket).SocketID = none) :=
  ⟨(C9_registry_release_on_connect_error tunnelEnvEarlyFail [] { SocketID := "sid-1" }).1 rfl,
   (C9_registry_release_on_connect_error tunnelEnvOrgFail [] { SocketID := "sid-1" }).2.1
     "u1" rfl rfl,
   (C9_registry_release_on_connect_error tunnelEnvSocketFail [] { SocketID := "sid-1" }).2.2.1
     "u1" {} rfl rfl rfl,
   (C9_registry_release_on_connect_error tunnelEnvConnectFail [] { SocketID := "sid-1" }).2.2.2
     "u1" {} { SocketID := "sid-1" } rfl rfl rfl (by decide) rfl⟩

end Border0
